import Mathlib

/-
Verification of the message-orchestration core of the conversational-agent
backend (conversations, calendar NLP, document context, streaming LLM).

The Python sources are shallowly embedded: pure functions become Lean
functions, the in-memory store and the conversation manager become explicit
state records, and every fallible external collaborator (LLM transport,
calendar provider, registered tools) is modelled as an oracle behaviour
returning `Except Unit α` (the `.error` case is a raised exception).  Python
strings are `String` / `List Char`; instants are minutes since the Unix epoch
(`Int`, UTC).  Text classification (`\w`, `str.lower`, `str.strip`) is
modelled at ASCII precision, which covers every constant the code matches on.
-/

namespace Agente

/-! ## Python string primitives -/

/-- ASCII lower-casing of a character, as `str.lower` acts on ASCII text. -/
def lowerChar (c : Char) : Char :=
  if 'A' ≤ c && c ≤ 'Z' then Char.ofNat (c.toNat + 32) else c

def lowerList (l : List Char) : List Char := l.map lowerChar

def lowerStr (s : String) : String := ⟨lowerList s.data⟩

/-- The characters matched by the regex class `\s` (and stripped by
`str.strip`) in the ASCII range. -/
def isPySpace (c : Char) : Bool :=
  c == ' ' || c == '\t' || c == '\n' || c == '\r' ||
  c == Char.ofNat 11 || c == Char.ofNat 12

def pyStripList (l : List Char) : List Char :=
  ((l.dropWhile isPySpace).reverse.dropWhile isPySpace).reverse

/-- Python `str.strip()` (ASCII whitespace). -/
def pyStrip (s : String) : String := ⟨pyStripList s.data⟩

/-- Python `needle in hay` substring test. -/
def containsSub (needle hay : List Char) : Bool :=
  hay.tails.any (fun t => needle.isPrefixOf t)

/-- The regex class `\w` at ASCII precision (`[A-Za-z0-9_]`). -/
def isWordChar (c : Char) : Bool := c.isAlphanum || c == '_'

/-! ## Regex searches used by the code -/

/-- Does word `w` occur at the head of `l` with a `\b` boundary after it? -/
def matchWordHere (w : List Char) (l : List Char) : Bool :=
  w.isPrefixOf l && !(isWordChar ((l.drop w.length).headD ' '))

/-- `re.search` for `\b(w1|w2|...)\b` (all words start with a word
character): scan every position whose preceding character is not a word
character. -/
def searchWordAny (ws : List (List Char)) : Bool → List Char → Bool
  | _, [] => false
  | prevWord, c :: rest =>
    ((!prevWord) && ws.any (fun w => matchWordHere w (c :: rest)))
      || searchWordAny ws (isWordChar c) rest

/-- The keyword set of `is_pdf_query`
(`\b(pdf|documento|archivo|fichero|adjunto)\b`). -/
def pdfKeywords : List (List Char) :=
  ["pdf".data, "documento".data, "archivo".data, "fichero".data, "adjunto".data]

/-- `prompt_utils.is_pdf_query`: empty text is falsy, otherwise the keyword
regex is searched in `text.lower()`. -/
def isPdfQuery (text : String) : Bool :=
  if text = "" then false
  else searchWordAny pdfKeywords false (lowerList text.data)

/-- One position match of `\b(19|20)\d{2}\b` (boundary before is checked by
the caller). -/
def yearHere (l : List Char) : Bool :=
  match l with
  | a :: b :: c :: d :: rest =>
    ((a == '1' && b == '9') || (a == '2' && b == '0'))
      && c.isDigit && d.isDigit && !(isWordChar (rest.headD ' '))
  | _ => false

def searchYear : Bool → List Char → Bool
  | _, [] => false
  | prevWord, c :: rest =>
    ((!prevWord) && yearHere (c :: rest)) || searchYear (isWordChar c) rest

/-- `calendar_nlp._user_mentions_year`: `re.search(r"\b(19|20)\d{2}\b", text)`. -/
def userMentionsYear (text : String) : Bool := searchYear false text.data

/-! ## Dates (python `datetime.date`) -/

structure Date where
  year : Int
  month : Nat
  day : Nat
deriving DecidableEq, Repr

def isLeapYear (y : Int) : Bool :=
  (y % 4 == 0 && y % 100 != 0) || y % 400 == 0

def daysInMonth (y : Int) (m : Nat) : Nat :=
  if m = 2 then (if isLeapYear y then 29 else 28)
  else if m = 4 || m = 6 || m = 9 || m = 11 then 30
  else 31

def isValidDate (d : Date) : Bool :=
  1 ≤ d.month && d.month ≤ 12 && 1 ≤ d.day && d.day ≤ daysInMonth d.year d.month

/-- Python `date` comparison (lexicographic). -/
def dateLt (a b : Date) : Bool :=
  a.year < b.year
    || (a.year == b.year
        && (a.month < b.month || (a.month == b.month && a.day < b.day)))

def digitVal (c : Char) : Nat := c.toNat - '0'.toNat

/-- `datetime.fromisoformat` restricted to the `YYYY-MM-DD` shape the intent
schema mandates (other iso shapes are out of scope of the claims; any other
input is a `ValueError`, i.e. `none`). -/
def parseIsoDate (s : String) : Option Date :=
  match s.data with
  | [y1, y2, y3, y4, '-', m1, m2, '-', d1, d2] =>
    if y1.isDigit && y2.isDigit && y3.isDigit && y4.isDigit
        && m1.isDigit && m2.isDigit && d1.isDigit && d2.isDigit then
      let y : Int := (digitVal y1 * 1000 + digitVal y2 * 100 + digitVal y3 * 10 + digitVal y4 : Nat)
      let m : Nat := digitVal m1 * 10 + digitVal m2
      let d : Nat := digitVal d1 * 10 + digitVal d2
      let dt : Date := ⟨y, m, d⟩
      if isValidDate dt then some dt else none
    else none
  | _ => none

def pad2 (n : Nat) : String := if n < 10 then "0" ++ toString n else toString n

def pad4 (n : Nat) : String :=
  if n < 10 then "000" ++ toString n
  else if n < 100 then "00" ++ toString n
  else if n < 1000 then "0" ++ toString n
  else toString n

/-- `date.isoformat()` (years of concrete interest are 1 ≤ y ≤ 9999). -/
def dateToIso (d : Date) : String :=
  pad4 d.year.toNat ++ "-" ++ pad2 d.month ++ "-" ++ pad2 d.day

/-- Days since 1970-01-01 of a civil date (standard civil-from-days inverse). -/
def daysFromCivil (dt : Date) : Int :=
  let y : Int := if dt.month ≤ 2 then dt.year - 1 else dt.year
  let era : Int := Int.fdiv y 400
  let yoe : Nat := (y - era * 400).toNat
  let mp : Nat := if 3 ≤ dt.month then dt.month - 3 else dt.month + 9
  let doy : Nat := (153 * mp + 2) / 5 + dt.day - 1
  let doe : Nat := yoe * 365 + yoe / 4 - yoe / 100 + doy
  era * 146097 + (doe : Int) - 719468

/-- Civil date of a day count since 1970-01-01. -/
def civilFromDays (z : Int) : Date :=
  let zs : Int := z + 719468
  let era : Int := Int.fdiv zs 146097
  let doe : Nat := (zs - era * 146097).toNat
  let yoe : Nat := (doe - doe / 1460 + doe / 36524 - doe / 146096) / 365
  let y : Int := (yoe : Int) + era * 400
  let doy : Nat := doe - (365 * yoe + yoe / 4 - yoe / 100)
  let mp : Nat := (5 * doy + 2) / 153
  let d : Nat := doy - (153 * mp + 2) / 5 + 1
  let m : Nat := if mp < 10 then mp + 3 else mp - 9
  ⟨y + (if m ≤ 2 then 1 else 0), m, d⟩

/-! ## The explicit tool-command regex

`use_cases.SendMessageUseCase._maybe_call_tool` (and the identical regex in
`llm_service`) matches `^tool:(?P<name>[a-zA-Z0-9_\-]+)\s*[: ]\s*(?P<query>.+)$`
with `re.match`.  The embedding reproduces the backtracking order of the
engine: the name class is disjoint from `\s` and `[: ]`, so the name group is
the maximal run; the two `\s*` are greedy with backtracking; `(.+)$` takes
every remaining character up to an optional single trailing newline. -/

def firstSome (f : Nat → Option α) : List Nat → Option α
  | [] => none
  | k :: ks => match f k with | some r => some r | none => firstSome f ks

/-- `(.+)$`: the group is all remaining characters, nonempty, containing no
newline, except that a single trailing newline is allowed (and excluded). -/
def matchQueryTail (l : List Char) : Option (List Char) :=
  let p := l.takeWhile (fun c => c != '\n')
  let r := l.drop p.length
  if p ≠ [] && (r = [] || r = ['\n']) then some p else none

/-- `\s*(.+)$`, greedy on the whitespace. -/
def matchWsThenQuery (l : List Char) : Option (List Char) :=
  let n := (l.takeWhile isPySpace).length
  firstSome (fun k => matchQueryTail (l.drop k)) ((List.range (n + 1)).reverse)

/-- `\s*[: ]\s*(.+)$`, greedy on the first whitespace run. -/
def matchSepQuery (l : List Char) : Option (List Char) :=
  let n := (l.takeWhile isPySpace).length
  firstSome
    (fun k =>
      match l.drop k with
      | c :: rest => if c == ':' || c == ' ' then matchWsThenQuery rest else none
      | [] => none)
    ((List.range (n + 1)).reverse)

def isNameChar (c : Char) : Bool := c.isAlphanum || c == '_' || c == '-'

/-- The whole `tool:` command match; returns the raw `name` and `query`
groups. -/
def toolCmdMatch (text : String) : Option (String × String) :=
  match text.data with
  | 't' :: 'o' :: 'o' :: 'l' :: ':' :: rest =>
    let nm := rest.takeWhile isNameChar
    if nm = [] then none
    else
      match matchSepQuery (rest.drop nm.length) with
      | some q => some (⟨nm⟩, ⟨q⟩)
      | none => none
  | _ => none

/-! ## `calendar_nlp._parse_time`

`re.search(r"\b(\d{1,2})(?::(\d{2}))?\s*(am|pm)?\b", text, re.IGNORECASE)`,
embedded with the engine's greedy/backtracking order.  The meridiem result is
`some true` for pm, `some false` for am. -/

/-- `\b` at a position whose previously consumed character's wordness is
`prevIsWord`. -/
def tailBoundary (prevIsWord : Bool) (l : List Char) : Bool :=
  match l with
  | [] => prevIsWord
  | c :: _ => prevIsWord != isWordChar c

/-- `\s*(am|pm)?\b` after the digit groups; `prev` is the last consumed
character. -/
def afterMin (hd : Nat) (mins : Option Nat) (prev : Char) (l : List Char) :
    Option (Nat × Option Nat × Option Bool) :=
  let n := (l.takeWhile isPySpace).length
  firstSome
    (fun k =>
      let l2 := l.drop k
      let prev2 := if k = 0 then prev else ' '
      (match l2 with
       | a :: m :: rest =>
         if lowerChar a == 'a' && lowerChar m == 'm' && tailBoundary true rest then
           some (hd, mins, some false)
         else if lowerChar a == 'p' && lowerChar m == 'm' && tailBoundary true rest then
           some (hd, mins, some true)
         else none
       | _ => none)
        <|> (if tailBoundary (isWordChar prev2) l2 then some (hd, mins, none) else none))
    ((List.range (n + 1)).reverse)

/-- `(?::(\d{2}))?` (greedy) after the hour digits. -/
def afterDigits (hd : Nat) (prev : Char) (l : List Char) :
    Option (Nat × Option Nat × Option Bool) :=
  (match l with
   | ':' :: a :: b :: rest =>
     if a.isDigit && b.isDigit then
       afterMin hd (some (digitVal a * 10 + digitVal b)) b rest
     else none
   | _ => none)
    <|> afterMin hd none prev l

/-- `(\d{1,2})...` at one position (two digits preferred). -/
def timeHere (l : List Char) : Option (Nat × Option Nat × Option Bool) :=
  match l with
  | c1 :: c2 :: rest =>
    if c1.isDigit then
      (if c2.isDigit then afterDigits (digitVal c1 * 10 + digitVal c2) c2 rest
       else none)
        <|> afterDigits (digitVal c1) c1 (c2 :: rest)
    else none
  | [c1] => if c1.isDigit then afterDigits (digitVal c1) c1 [] else none
  | [] => none

def searchTime : Bool → List Char → Option (Nat × Option Nat × Option Bool)
  | _, [] => none
  | prevWord, c :: rest =>
    (if !prevWord then timeHere (c :: rest) else none)
      <|> searchTime (isWordChar c) rest

/-- `calendar_nlp._parse_time`: normalises free-form times like `5pm`. -/
def parseTimePy (text : String) : Option String :=
  match searchTime false text.data with
  | none => none
  | some (h, mOpt, mer) =>
    let minute := mOpt.getD 0
    let hour :=
      match mer with
      | some true => if h < 12 then h + 12 else h
      | some false => if h = 12 then 0 else h
      | none => h
    some (pad2 hour ++ ":" ++ pad2 minute)

/-! ## `calendar_nlp._combine_date_time_europe_madrid` -/

/-- `^\d{1,2}:\d{2}$` (no trailing newline possible: applied to a stripped
string). -/
def matchesHhMm (l : List Char) : Bool :=
  match l with
  | [h1, ':', m1, m2] => h1.isDigit && m1.isDigit && m2.isDigit
  | [h1, h2, ':', m1, m2] => h1.isDigit && h2.isDigit && m1.isDigit && m2.isDigit
  | _ => false

/-- `datetime.fromisoformat` on the `YYYY-MM-DD HH:MM` shape produced by the
combination (anything else raises, i.e. `none`). -/
def parseIsoDateTime (s : String) : Option (Date × Nat × Nat) :=
  match s.data with
  | [y1, y2, y3, y4, '-', mo1, mo2, '-', d1, d2, ' ', h1, h2, ':', mi1, mi2] =>
    match parseIsoDate ⟨[y1, y2, y3, y4, '-', mo1, mo2, '-', d1, d2]⟩ with
    | none => none
    | some dt =>
      if h1.isDigit && h2.isDigit && mi1.isDigit && mi2.isDigit then
        let hh := digitVal h1 * 10 + digitVal h2
        let mm := digitVal mi1 * 10 + digitVal mi2
        if hh ≤ 23 && mm ≤ 59 then some (dt, hh, mm) else none
      else none
  | _ => none

/-- Combines a local Madrid date and time into a UTC instant (minutes since
epoch).  `tz` is the Europe/Madrid UTC offset in minutes of a local wall
clock (an environment parameter: 60 in winter, 120 in summer). -/
def combineDateTimeMadrid (tz : Date → Nat → Nat → Int) (dateStr timeStr : String) :
    Option Int :=
  if dateStr = "" || timeStr = "" then none
  else
    let normalized :=
      if matchesHhMm (pyStrip timeStr).data then timeStr
      else (parseTimePy timeStr).getD timeStr
    match parseIsoDateTime (dateStr ++ " " ++ normalized) with
    | none => none
    | some (d, hh, mm) =>
      some (daysFromCivil d * 1440 + (hh * 60 + mm : Nat) - tz d hh mm)

/-! ## Domain entities (`domain/entities.py`)

Creation timestamps are process-clock metadata never consulted by the
verified flows and are omitted; event `metadata` likewise. -/

structure User where
  id : String
  username : String
  fullName : Option String := none
deriving DecidableEq, Repr

structure Message where
  id : String
  conversationId : String
  role : String
  content : String
deriving DecidableEq, Repr

structure Conversation where
  id : String
  userId : String
  title : Option String := none
  messageIds : List String := []
deriving DecidableEq, Repr

structure Event where
  id : String
  userId : String
  title : String
  startsAt : Int
  endsAt : Int
deriving DecidableEq, Repr

structure Document where
  id : String
  userId : String
  filename : String
  content : String
  conversationId : Option String := none
deriving DecidableEq, Repr

/-! ## `infrastructure/memory_store.py`

Python dicts keyed by entity id, kept as insertion-ordered lists with
replace-in-place semantics on key collision (`d[k] = v`). -/

def dictInsert (key : α → String) (x : α) (l : List α) : List α :=
  if l.any (fun y => key y == key x) then
    l.map (fun y => if key y == key x then x else y)
  else l ++ [x]

structure InMemoryStore where
  users : List User := []
  conversations : List Conversation := []
  messages : List Message := []
  events : List Event := []
  documents : List Document := []
deriving DecidableEq, Repr

def addUser (st : InMemoryStore) (u : User) : InMemoryStore :=
  { st with users := dictInsert User.id u st.users }

def getUser (st : InMemoryStore) (userId : String) : Option User :=
  st.users.find? (fun u => u.id == userId)

def addConversation (st : InMemoryStore) (c : Conversation) : InMemoryStore :=
  { st with conversations := dictInsert Conversation.id c st.conversations }

def getConversation (st : InMemoryStore) (conversationId : String) : Option Conversation :=
  st.conversations.find? (fun c => c.id == conversationId)

/-- `InMemoryStore.add_message`: stores the message unconditionally and
appends its id to the conversation's `message_ids` when the conversation
exists. -/
def addMessage (st : InMemoryStore) (m : Message) : InMemoryStore :=
  let st1 := { st with messages := dictInsert Message.id m st.messages }
  match getConversation st m.conversationId with
  | some c =>
    { st1 with
      conversations :=
        dictInsert Conversation.id { c with messageIds := c.messageIds ++ [m.id] }
          st1.conversations }
  | none => st1

def listMessagesByConversation (st : InMemoryStore) (conversationId : String) :
    List Message :=
  st.messages.filter (fun m => m.conversationId == conversationId)

def addDocument (st : InMemoryStore) (d : Document) : InMemoryStore :=
  { st with documents := dictInsert Document.id d st.documents }

def listDocumentsByConversation (st : InMemoryStore) (conversationId : String) :
    List Document :=
  st.documents.filter (fun d => d.conversationId == some conversationId)

/-! ## `application/conversation_manager.py`

The manager shares the store; `AppState` bundles both.  Pending-task
tracking (`asyncio.Task` handles) is runtime machinery outside the claims. -/

structure AppState where
  store : InMemoryStore := {}
  activeByUser : List (String × String) := []
deriving DecidableEq, Repr

def setActiveConversation (st : AppState) (userId conversationId : String) : AppState :=
  { st with
    activeByUser :=
      if st.activeByUser.any (fun p => p.1 == userId) then
        st.activeByUser.map (fun p => if p.1 == userId then (userId, conversationId) else p)
      else st.activeByUser ++ [(userId, conversationId)] }

def activeIdOf (st : AppState) (userId : String) : Option String :=
  (st.activeByUser.find? (fun p => p.1 == userId)).map Prod.snd

def getActiveConversation (st : AppState) (userId : String) : Option Conversation :=
  match activeIdOf st userId with
  | some cid => getConversation st.store cid
  | none => none

/-- `ConversationManager.create_conversation`: new id `conv_{len+1}`, stored
and immediately marked active. -/
def createConversation (st : AppState) (userId : String) (title : Option String) :
    Conversation × AppState :=
  let conv : Conversation :=
    { id := "conv_" ++ toString (st.store.conversations.length + 1)
      userId := userId, title := title, messageIds := [] }
  let st1 := { st with store := addConversation st.store conv }
  (conv, setActiveConversation st1 userId conv.id)

/-! ## `application/prompt_utils.py` -/

/-- A `{"role": ..., "content": ...}` payload entry. -/
structure RoleMsg where
  role : String
  content : String
deriving DecidableEq, Repr

/-- Python `lst[-n:]` for a non-negative `n` (`lst[-0:]` is the whole
list). -/
def pyLastTake (n : Nat) (l : List α) : List α :=
  if n = 0 then l else l.drop (l.length - min n l.length)

/-- `prompt_utils.build_message_payload`. -/
def buildMessagePayload (st : InMemoryStore) (conversationId : String)
    (maxHistoryMessages : Nat) : List RoleMsg :=
  (pyLastTake maxHistoryMessages (listMessagesByConversation st conversationId)).map
    (fun m => ⟨m.role, m.content⟩)

/-- `str.isprintable` at ASCII precision (control characters are not
printable; non-ASCII text is outside the modelled alphabet). -/
def isPrintableChar (c : Char) : Bool := 0x20 ≤ c.toNat && c.toNat ≠ 0x7f

/-- `re.sub(r"\s+", " ", l)`: collapse whitespace runs to single spaces
(fuel = length; every step consumes at least one character). -/
def collapseWsAux : Nat → List Char → List Char
  | 0, _ => []
  | _, [] => []
  | fuel + 1, c :: rest =>
    if isPySpace c then ' ' :: collapseWsAux fuel (rest.dropWhile isPySpace)
    else c :: collapseWsAux fuel rest

def collapseWs (l : List Char) : List Char := collapseWsAux l.length l

/-- `prompt_utils._sanitize_pdf_text`. -/
def sanitizePdfText (text : String) : String :=
  if text = "" then ""
  else
    ⟨pyStripList (collapseWs (text.data.map (fun c => if isPrintableChar c then c else ' ')))⟩

/-- `prompt_utils.should_use_pdf_context`. -/
def shouldUsePdfContext (st : InMemoryStore) (conversationId : String)
    (userText : String) : Bool :=
  if isPdfQuery userText then true
  else
    let documents := listDocumentsByConversation st conversationId
    if documents = [] then false
    else
      let recent := pyLastTake 3 (listMessagesByConversation st conversationId)
      if recent.any (fun m => m.content != "" && isPdfQuery m.content) then true
      else
        documents.any (fun d =>
          d.filename != "" && containsSub (lowerList d.filename.data) (lowerList userText.data))

/-- `re.search(r"(\d+)$", id)` followed by `int(...)`, defaulting to 0. -/
def trailingDigitsKey (s : String) : Nat :=
  let ds := (s.data.reverse.takeWhile Char.isDigit).reverse
  if ds = [] then 0 else ds.foldl (fun acc c => acc * 10 + digitVal c) 0

/-- `sorted(documents, key=_doc_sort_key)[-1]`: the last document (stable
sort) among those with the maximal trailing-digit key. -/
def selectLatestDoc (d0 : Document) (rest : List Document) : Document :=
  rest.foldl (fun best d => if trailingDigitsKey best.id ≤ trailingDigitsKey d.id then d else best) d0

def pyTruncate (maxChars : Nat) (s : String) : String :=
  if maxChars < s.data.length then ⟨s.data.take maxChars⟩ ++ "..." else s

/-- `prompt_utils.build_pdf_focus_context` (default `max_chars = 2000`). -/
def buildPdfFocusContext (st : InMemoryStore) (conversationId : String)
    (userText : String) : Option String :=
  if !shouldUsePdfContext st conversationId userText then none
  else
    match listDocumentsByConversation st conversationId with
    | [] => none
    | d0 :: rest =>
      let docs := d0 :: rest
      let selected :=
        match docs.find? (fun d =>
            d.filename != "" && containsSub (lowerList d.filename.data) (lowerList userText.data)) with
        | some d => d
        | none => selectLatestDoc d0 rest
      let content := sanitizePdfText (pyStrip selected.content)
      if content = "" then
        some ("Documento: " ++ selected.filename ++ "\n" ++
          "(No se pudo extraer texto legible del PDF. Si es un PDF escaneado, " ++
          "sube una versión con OCR.)")
      else
        some ("Documento: " ++ selected.filename ++ "\n" ++ pyTruncate 2000 content)

def joinWithNl : List String → String
  | [] => ""
  | [s] => s
  | s :: rest => s ++ "\n" ++ joinWithNl rest

/-- `prompt_utils.build_system_prompt`. -/
def buildSystemPrompt (st : InMemoryStore) (userId conversationId : String)
    (pdfFocusContext : Option String) : String :=
  let userName := match getUser st userId with | some u => u.username | none => "desconocido"
  let conversationDocs := listDocumentsByConversation st conversationId
  let docContext :=
    if conversationDocs ≠ [] then
      joinWithNl (conversationDocs.map (fun doc =>
        let preview := sanitizePdfText (pyStrip doc.content)
        let preview := ⟨preview.data.map (fun c => if c = '\n' then ' ' else c)⟩
        "- " ++ doc.filename ++ ": " ++ pyTruncate 500 preview))
    else "(sin PDFs asociados a esta conversación)"
  let pdfFocusBlock :=
    match pdfFocusContext with
    | some ctx =>
      if ctx = "" then ""
      else
        "\n\nContexto PDF prioritario (usa esto para responder preguntas sobre el PDF):\n"
          ++ ctx
    | none => ""
  "Eres un agente conversacional para gestión de calendario. " ++
    "Usa el contexto de la conversación para responder de forma coherente. " ++
    "Usuario: " ++ userName ++ ". Conversación: " ++ conversationId ++ ". " ++
    "PDFs en esta conversación:\n" ++ docContext ++ pdfFocusBlock

/-! ## `application/calendar_nlp.py` -/

/-- Accent folding of `_normalize` (NFD + drop `Mn`) for the Spanish
alphabet the code compares (full Unicode is outside the modelled
alphabet). -/
def accentFold (c : Char) : Char :=
  if c = 'á' || c = 'Á' then 'a'
  else if c = 'é' || c = 'É' then 'e'
  else if c = 'í' || c = 'Í' then 'i'
  else if c = 'ó' || c = 'Ó' then 'o'
  else if c = 'ú' || c = 'Ú' || c = 'ü' || c = 'Ü' then 'u'
  else if c = 'ñ' || c = 'Ñ' then 'n'
  else c

/-- `calendar_nlp._normalize`: lower-case and strip accents. -/
def normalizePy (s : String) : List Char := (lowerList s.data).map accentFold

/-- Python truthiness of an optional string field (`None` and `""` are
falsy). -/
def isTruthyS : Option String → Bool
  | some s => s != ""
  | none => false

/-- Python `value or default` on an optional string. -/
def pyOrStr (v : Option String) (d : String) : String :=
  match v with
  | some s => if s = "" then d else s
  | none => d

/-- The nested `update` object of the intent JSON. -/
structure CalendarUpdate where
  title : Option String := none
  date : Option String := none
  startTime : Option String := none
  endTime : Option String := none
deriving DecidableEq, Repr

/-- The intent JSON object the LLM is instructed to emit.  Fields read via
`dict.get` are optional. -/
structure CalendarIntent where
  action : Option String := none
  title : Option String := none
  date : Option String := none
  startTime : Option String := none
  endTime : Option String := none
  eventId : Option String := none
  rangeStart : Option String := none
  rangeEnd : Option String := none
  update : Option CalendarUpdate := none
deriving DecidableEq, Repr

/-- `calendar_nlp._adjust_date_if_year_missing`.  Only the `fromisoformat`
call sits inside the `try`; a `ValueError` raised by `date.replace`
(February 29 anchored to a non-leap year) escapes, hence `Except`. -/
def adjustDateIfYearMissing (today : Date) (dateStr : String) :
    Except Unit (Option String) :=
  match parseIsoDate dateStr with
  | none => .ok none
  | some d =>
    let candidate : Date := ⟨today.year, d.month, d.day⟩
    if !isValidDate candidate then .error ()
    else if dateLt candidate today then
      let rolled : Date := ⟨today.year + 1, d.month, d.day⟩
      if !isValidDate rolled then .error ()
      else .ok (some (dateToIso rolled))
    else .ok (some (dateToIso candidate))

/-- The inner `_adjust(field)` of `_normalize_intent_dates`: falsy fields and
unparseable dates stay unchanged. -/
def adjField (today : Date) (v : Option String) : Except Unit (Option String) :=
  if !isTruthyS v then .ok v
  else
    match adjustDateIfYearMissing today (v.getD "") with
    | .error e => .error e
    | .ok none => .ok v
    | .ok (some a) => .ok (some a)

def adjUpdate (today : Date) (u : Option CalendarUpdate) :
    Except Unit (Option CalendarUpdate) :=
  match u with
  | some upd =>
    if isTruthyS upd.date then
      match adjustDateIfYearMissing today (upd.date.getD "") with
      | .error e => .error e
      | .ok none => .ok (some upd)
      | .ok (some a) => .ok (some { upd with date := some a })
    else .ok (some upd)
  | none => .ok none

/-- `calendar_nlp._normalize_intent_dates`: skipped entirely when the user
text mentions a year; otherwise `date`, `range_start`, `range_end` and
`update.date` are re-anchored. -/
def normalizeIntentDates (today : Date) (userText : String)
    (intent : CalendarIntent) : Except Unit CalendarIntent :=
  if userMentionsYear userText then .ok intent
  else do
    let d ← adjField today intent.date
    let rs ← adjField today intent.rangeStart
    let re2 ← adjField today intent.rangeEnd
    let u ← adjUpdate today intent.update
    return { intent with date := d, rangeStart := rs, rangeEnd := re2, update := u }

/-- `calendar_nlp._start_of_day`: UTC midnight instant of a parseable date,
`None` otherwise. -/
def startOfDay (dateStr : Option String) : Option Int :=
  match dateStr with
  | none => none
  | some s => if s = "" then none else (parseIsoDate s).map (fun d => daysFromCivil d * 1440)

/-- `.date()` of a stored (UTC) instant. -/
def dateOfInstant (i : Int) : Date := civilFromDays (Int.fdiv i 1440)

/-- `datetime.isoformat()` of a stored UTC instant (minute precision). -/
def instantToIso (i : Int) : String :=
  let d := Int.fdiv i 1440
  let rem := (i - d * 1440).toNat
  dateToIso (civilFromDays d) ++ "T" ++ pad2 (rem / 60) ++ ":" ++ pad2 (rem % 60) ++ ":00+00:00"

/-- `strftime("%H:%M")` of a stored UTC instant. -/
def instantHhMm (i : Int) : String :=
  let rem := (i - Int.fdiv i 1440 * 1440).toNat
  pad2 (rem / 60) ++ ":" ++ pad2 (rem % 60)

/-- `calendar_nlp._format_event`. -/
def formatEvent (e : Event) : String :=
  "- " ++ e.id ++ ": " ++ e.title ++ " (" ++ instantToIso e.startsAt ++ " - "
    ++ instantToIso e.endsAt ++ ")"

/-- `calendar_nlp._find_event_by_title_date`: `inl` a single resolved event,
`inr` the ambiguous candidate list. -/
def findEventByTitleDate (events : List Event) (title : Option String)
    (dateStr : Option String) : Option (Event ⊕ List Event) :=
  if events = [] then none
  else
    let filtered :=
      if isTruthyS dateStr then
        match parseIsoDate (dateStr.getD "") with
        | some dv => events.filter (fun e => dateOfInstant e.startsAt == dv)
        | none => events
      else events
    let titleHit :=
      if isTruthyS title then
        filtered.find? (fun e => containsSub (normalizePy (title.getD "")) (normalizePy e.title))
      else none
    match titleHit with
    | some e => some (.inl e)
    | none =>
      match filtered with
      | [e] => some (.inl e)
      | [] => none
      | es => some (.inr es)

/-- `calendar_nlp._build_calendar_intent_prompt` (braces written as escape
sequences). -/
def buildCalendarIntentPrompt (todayUtcIso : String) : String :=
  "Eres un extractor de intención para un calendario. " ++
  "Debes responder SOLO JSON válido, sin texto adicional. " ++
  "Si no es una solicitud de calendario, responde action=\x27none\x27. " ++
  "Hoy es " ++ todayUtcIso ++ " (UTC). " ++
  "La zona horaria de todos los eventos es Europa/Madrid (España, UTC+1 o UTC+2 en verano). " ++
  "Resuelve fechas relativas (hoy, mañana, pasado mañana, este viernes) y horas como hora local de España. " ++
  "Formato obligatorio de salida:\n" ++
  "\x7b\n" ++
  "  \"action\": \"create|list|edit|delete|none\",\n" ++
  "  \"title\": \"string|null\",\n" ++
  "  \"date\": \"YYYY-MM-DD|null\",\n" ++
  "  \"start_time\": \"HH:MM|null\",\n" ++
  "  \"end_time\": \"HH:MM|null\",\n" ++
  "  \"event_id\": \"string|null\",\n" ++
  "  \"range_start\": \"YYYY-MM-DD|null\",\n" ++
  "  \"range_end\": \"YYYY-MM-DD|null\",\n" ++
  "  \"update\": \x7b\n" ++
  "    \"title\": \"string|null\",\n" ++
  "    \"date\": \"YYYY-MM-DD|null\",\n" ++
  "    \"start_time\": \"HH:MM|null\",\n" ++
  "    \"end_time\": \"HH:MM|null\"\n" ++
  "  \x7d\n" ++
  "\x7d"

/-! ## External collaborators as oracle behaviours

Every external call may raise; a raised exception is `.error ()`.  The
calendar-intent oracle models `llm.generate_messages` composed with
`_parse_calendar_intent` (the JSON decoding of the raw reply): the claims
quantify over the resulting intent, so the JSON surface syntax is abstracted
while the transport failure (`.error`) and the malformed-reply outcome
(`.ok none`) are kept distinct, exactly as in the source. -/

/-- The provider-side behaviour of the `GoogleCalendarTool` wrapper consumed
by `calendar_nlp` (instants are UTC minutes). -/
structure CalendarBehavior where
  listEvents : Except Unit (List Event)
  createEvent : String → String → Int → Int → Except Unit Event
  deleteEvent : String → Except Unit Bool
  updateEvent : String → Option String → Option Int → Option Int →
    Except Unit (Option Event)

/-- One entry of the `ToolRegistry`: the `BaseTool.execute` behaviour, plus
the calendar capability when the tool has the `GoogleCalendarTool`
interface (`none` models the `AttributeError` of calling a calendar method
on a tool that lacks it). -/
structure ToolEntry where
  runTool : String → Except Unit String
  calendar : Option CalendarBehavior := none

structure Env where
  registry : List (String × ToolEntry) := []
  /-- Europe/Madrid UTC offset (minutes) of a local wall clock. -/
  tz : Date → Nat → Nat → Int := fun _ _ _ => 60
  /-- `llm.generate_messages` + `_parse_calendar_intent` on its reply. -/
  calendarIntentOf : String → List RoleMsg → Except Unit (Option CalendarIntent) :=
    fun _ _ => .ok none
  /-- `llm.stream_messages`: the yielded fragments, and whether the iterator
  raises after them. -/
  streamOf : String → List RoleMsg → List String × Bool := fun _ _ => ([], false)
  /-- `datetime.now(tz=timezone.utc).date().isoformat()` of the run. -/
  todayUtcIso : String := ""
  /-- `datetime.now(ZoneInfo("Europe/Madrid")).date()` of the run. -/
  todayMadrid : Date := ⟨2026, 1, 1⟩

def getTool (env : Env) (name : String) : Option ToolEntry :=
  (env.registry.find? (fun p => p.1 == name)).map Prod.snd

/-- Ghost instrumentation: one entry per external call / persistence the
orchestration performs, in order. -/
inductive CallEv
  | toolExecute (name query : String)
  | calendarDispatch
  | listEvents
  | createEvent (userId title : String) (startsAt endsAt : Int)
  | deleteEvent (eventId : String)
  | updateEvent (eventId : String)
  | streamGeneration
  | persistAssistant (content : String)
deriving DecidableEq, Repr

/-! ## `calendar_nlp.maybe_handle_calendar_llm` -/

/-- The shared range-filter arithmetic of the `list` and `delete` branches:
`start_dt` / `end_dt` resolution plus the `+1 day` closures. -/
def resolveRange (rangeStart rangeEnd dateStr : Option String) :
    Option Int × Option Int :=
  let startDt := if isTruthyS rangeStart then startOfDay rangeStart else startOfDay dateStr
  let endDt := if isTruthyS rangeEnd then startOfDay rangeEnd else none
  match startDt, endDt with
  | some _, some e => (startDt, some (e + 1440))
  | some s, none => (startDt, some (s + 1440))
  | none, _ => (none, endDt)

def inRange (startDt endDt : Int) (e : Event) : Bool :=
  startDt ≤ e.startsAt && e.startsAt < endDt

/-- The per-event deletion loop of the bulk branches: every deletion is
attempted, failures are only logged, `deleted_ids` collects the events whose
call did not raise. -/
def bulkDelete (cb : CalendarBehavior) (toDelete : List Event) : Nat × List CallEv :=
  ((toDelete.filter (fun e => (cb.deleteEvent e.id).toBool)).length,
   toDelete.map (fun e => CallEv.deleteEvent e.id))

def calCreate (env : Env) (cal : Option CalendarBehavior) (userId : String)
    (intent : CalendarIntent) : Except Unit (Option String) × List CallEv :=
  let title := pyStrip (pyOrStr intent.title "Evento")
  if !isTruthyS intent.date || !isTruthyS intent.startTime then
    (.ok (some "Para agendar necesito fecha y hora."), [])
  else
    match combineDateTimeMadrid env.tz (intent.date.getD "") (intent.startTime.getD "") with
    | none => (.ok (some "No pude interpretar la fecha u hora del evento."), [])
    | some startsAt =>
      let endsAt :=
        match
          (if isTruthyS intent.endTime then
            combineDateTimeMadrid env.tz (intent.date.getD "") (intent.endTime.getD "")
          else none) with
        | some e => e
        | none => startsAt + 60
      match cal with
      | none => (.error (), [])
      | some cb =>
        match cb.createEvent userId title startsAt endsAt with
        | .error _ =>
          (.ok (some "No se pudo crear el evento."),
           [.createEvent userId title startsAt endsAt])
        | .ok ev =>
          (.ok (some ("Evento creado en Google Calendar:\n" ++ formatEvent ev)),
           [.createEvent userId title startsAt endsAt])

def calList (cal : Option CalendarBehavior) (userId : String)
    (intent : CalendarIntent) : Except Unit (Option String) × List CallEv :=
  match cal with
  | none => (.error (), [])
  | some cb =>
    match cb.listEvents with
    | .error _ => (.error (), [.listEvents])
    | .ok events =>
      let events :=
        if isTruthyS intent.rangeStart || isTruthyS intent.rangeEnd then
          match resolveRange intent.rangeStart intent.rangeEnd intent.date with
          | (some s, some e) => events.filter (inRange s e)
          | _ => events
        else if isTruthyS intent.date then
          match startOfDay intent.date with
          | some day => events.filter (inRange day (day + 1440))
          | none => events
        else events
      if events = [] then (.ok (some "No hay eventos en tu calendario para ese rango."), [.listEvents])
      else
        (.ok (some ("Eventos próximos:\n" ++ joinWithNl ((events.take 10).map formatEvent))),
         [.listEvents])

/-- The single-event tail of the `delete` branch (`calendar_tool.delete_event`
wrapped in its own `try`). -/
def calDeleteSingle (cb : CalendarBehavior) (eid : String) (log0 : List CallEv) :
    Except Unit (Option String) × List CallEv :=
  match cb.deleteEvent eid with
  | .error _ => (.ok (some "No se pudo eliminar el evento."), log0 ++ [.deleteEvent eid])
  | .ok true => (.ok (some ("Evento eliminado: " ++ eid ++ ".")), log0 ++ [.deleteEvent eid])
  | .ok false => (.ok (some "Evento no encontrado."), log0 ++ [.deleteEvent eid])

def calDelete (cal : Option CalendarBehavior) (userId : String)
    (intent : CalendarIntent) : Except Unit (Option String) × List CallEv :=
  match cal with
  | none => (.error (), [])
  | some cb =>
    match cb.listEvents with
    | .error _ => (.error (), [.listEvents])
    | .ok events =>
      if isTruthyS intent.rangeStart || isTruthyS intent.rangeEnd then
        let toDelete :=
          match resolveRange intent.rangeStart intent.rangeEnd intent.date with
          | (some s, some e) => events.filter (inRange s e)
          | _ => []
        if toDelete = [] then
          (.ok (some "No hay eventos en ese rango para eliminar."), [.listEvents])
        else
          let (nOk, dLog) := bulkDelete cb toDelete
          (.ok (some ("Se eliminaron " ++ toString nOk ++ " eventos:\n"
              ++ joinWithNl (toDelete.map formatEvent))),
           [.listEvents] ++ dLog)
      else
        if !isTruthyS intent.eventId then
          match findEventByTitleDate events intent.title intent.date with
          | none =>
            (.ok (some "No pude identificar el evento. Indica el id o más detalles."),
             [.listEvents])
          | some (.inr ms) =>
            let (nOk, dLog) := bulkDelete cb ms
            (.ok (some ("Se eliminaron " ++ toString nOk ++ " eventos:\n"
                ++ joinWithNl (ms.map formatEvent))),
             [.listEvents] ++ dLog)
          | some (.inl e) => calDeleteSingle cb e.id [.listEvents]
        else calDeleteSingle cb (intent.eventId.getD "") [.listEvents]

def calEdit (env : Env) (cal : Option CalendarBehavior) (userId : String)
    (intent : CalendarIntent) : Except Unit (Option String) × List CallEv :=
  match cal with
  | none => (.error (), [])
  | some cb =>
    match cb.listEvents with
    | .error _ => (.error (), [.listEvents])
    | .ok events =>
      let resolved : (String × Option Event) ⊕ String :=
        if !isTruthyS intent.eventId then
          match findEventByTitleDate events intent.title intent.date with
          | none => .inr "No pude identificar el evento. Indica el id o más detalles."
          | some (.inr ms) =>
            .inr ("Encontré varios eventos. Indica el id para editar:\n"
              ++ joinWithNl ((ms.take 5).map formatEvent))
          | some (.inl e) => .inl (e.id, some e)
        else
          let eid := intent.eventId.getD ""
          .inl (eid, events.find? (fun e => e.id == eid))
      match resolved with
      | .inr msg => (.ok (some msg), [.listEvents])
      | .inl (eventId, targetEvent) =>
        let updates := intent.update.getD {}
        if !(isTruthyS updates.title || isTruthyS updates.date
            || isTruthyS updates.startTime || isTruthyS updates.endTime) then
          (.ok (some "Indica qué cambios deseas aplicar (título o fecha/hora)."),
           [.listEvents])
        else
          let (startsAt, endsAt) :=
            match targetEvent with
            | none => (none, none)
            | some tgt =>
              let baseDate := dateToIso (dateOfInstant tgt.startsAt)
              let startsAt :=
                if isTruthyS updates.date && isTruthyS updates.startTime then
                  combineDateTimeMadrid env.tz (updates.date.getD "") (updates.startTime.getD "")
                else if isTruthyS updates.date && !isTruthyS updates.startTime then
                  combineDateTimeMadrid env.tz (updates.date.getD "") (instantHhMm tgt.startsAt)
                else if isTruthyS updates.startTime && !isTruthyS updates.date then
                  combineDateTimeMadrid env.tz baseDate (updates.startTime.getD "")
                else none
              let endsAt :=
                if isTruthyS updates.endTime then
                  combineDateTimeMadrid env.tz
                    (if isTruthyS updates.date then updates.date.getD "" else baseDate)
                    (updates.endTime.getD "")
                else
                  match startsAt with
                  | some s => some (s + 60)
                  | none => none
              (startsAt, endsAt)
          match cb.updateEvent eventId updates.title startsAt endsAt with
          | .error _ =>
            (.ok (some "No se pudo actualizar el evento."), [.listEvents, .updateEvent eventId])
          | .ok none =>
            (.ok (some "Evento no encontrado."), [.listEvents, .updateEvent eventId])
          | .ok (some updated) =>
            (.ok (some ("Evento actualizado:\n" ++ formatEvent updated)),
             [.listEvents, .updateEvent eventId])

/-- `calendar_nlp.maybe_handle_calendar_llm`. -/
def maybeHandleCalendarLlm (env : Env) (text userId : String)
    (messages : List RoleMsg) (st : InMemoryStore) (conversationId : String) :
    Except Unit (Option String) × List CallEv :=
  if shouldUsePdfContext st conversationId text then (.ok none, [])
  else
    match getTool env "calendar" with
    | none => (.ok none, [])
    | some ctool =>
      match env.calendarIntentOf (buildCalendarIntentPrompt env.todayUtcIso) messages with
      | .error _ => (.error (), [])
      | .ok none => (.ok none, [])
      | .ok (some intent0) =>
        match normalizeIntentDates env.todayMadrid text intent0 with
        | .error _ => (.error (), [])
        | .ok intent =>
          let action := lowerStr (pyOrStr intent.action "none")
          if action = "none" || action = "" || action = "null" then (.ok none, [])
          else if action = "create" then calCreate env ctool.calendar userId intent
          else if action = "list" then calList ctool.calendar userId intent
          else if action = "delete" then calDelete ctool.calendar userId intent
          else if action = "edit" then calEdit env ctool.calendar userId intent
          else (.ok none, [])

/-! ## `application/use_cases.py` -/

structure UseCaseConfig where
  maxHistoryMessages : Nat := 10
  notifyOnComplete : Bool := true
deriving DecidableEq, Repr

/-- `GetConversationHistoryUseCase.execute`:
`messages[-limit:] if limit else messages`.  The limit is a Python int
(possibly zero or negative); slicing `xs[i:]` clamps. -/
def pySliceFrom (i : Int) (l : List α) : List α :=
  if 0 ≤ i then l.drop (min i.toNat l.length)
  else l.drop (l.length - min (-i).toNat l.length)

def getConversationHistory (st : InMemoryStore) (conversationId : String)
    (limit : Option Int) : List Message :=
  let messages := listMessagesByConversation st conversationId
  match limit with
  | none => messages
  | some n => if n = 0 then messages else pySliceFrom (-n) messages

/-- `SendMessageUseCase._resolve_conversation` (the supplied id is subject to
Python truthiness: `""` counts as not supplied). -/
def resolveFromActive (st : AppState) (userId : String) : Conversation × AppState :=
  match getActiveConversation st userId with
  | some active => (active, st)
  | none => createConversation st userId none

def resolveConversation (st : AppState) (userId : String)
    (conversationId : Option String) : Conversation × AppState :=
  match conversationId with
  | some cid =>
    if cid ≠ "" then
      match getConversation st.store cid with
      | some conv => (conv, st)
      | none => createConversation st userId none
    else resolveFromActive st userId
  | none => resolveFromActive st userId

/-- `SendMessageUseCase._persist_assistant_message`. -/
def persistAssistantMessage (st : AppState) (conversationId content : String) : AppState :=
  { st with
    store :=
      addMessage st.store
        ⟨"msg_" ++ toString (st.store.messages.length + 1), conversationId, "assistant", content⟩ }

def finishedMarker : String := "\n[Respuesta finalizada]"

/-- `SendMessageUseCase._maybe_call_tool`.  The tool's own exception is
caught inside (sentinel error reply), so the function is total; the broad
`except` around its call site in `execute` is dead code in the embedding. -/
def maybeCallTool (env : Env) (userText : String) : Option String × List CallEv :=
  match toolCmdMatch userText with
  | none => (none, [])
  | some (nm, q) =>
    let toolName := pyStrip nm
    let query := pyStrip q
    match getTool env toolName with
    | none => (some ("Herramienta no encontrada: " ++ toolName), [])
    | some tl =>
      match tl.runTool query with
      | .ok result =>
        (some ("Resultado de herramienta (" ++ toolName ++ "): " ++ result),
         [.toolExecute toolName query])
      | .error _ =>
        (some ("Error al ejecutar la herramienta " ++ toolName ++ "."),
         [.toolExecute toolName query])

/-- The outcome of one `SendMessageUseCase.execute` invocation: the yielded
fragments in order, the final state, and the external-call log. -/
structure ExecResult where
  fragments : List String
  state : AppState
  calls : List CallEv
deriving Repr

/-- Stage 5–7 of the orchestration: generic generation with document
context, persistence of the accumulated (or apology) text, completion
marker. -/
def genPhase (env : Env) (cfg : UseCaseConfig) (st : AppState) (conv : Conversation)
    (userId text : String) (logAcc : List CallEv) : ExecResult :=
  let endFrags := if cfg.notifyOnComplete then [finishedMarker] else []
  let pdfFocus := buildPdfFocusContext st.store conv.id text
  let systemPrompt := buildSystemPrompt st.store userId conv.id pdfFocus
  let payload := buildMessagePayload st.store conv.id cfg.maxHistoryMessages
  let (chunks, raisesAfter) := env.streamOf systemPrompt payload
  if raisesAfter then
    let errMsg := "Ocurrió un error al generar la respuesta. Intenta nuevamente."
    let st4 := persistAssistantMessage st conv.id errMsg
    ⟨chunks ++ [errMsg] ++ endFrags, st4,
     logAcc ++ [.streamGeneration, .persistAssistant errMsg]⟩
  else
    let assistantContent := String.join chunks
    let st4 := persistAssistantMessage st conv.id assistantContent
    ⟨chunks ++ endFrags, st4,
     logAcc ++ [.streamGeneration, .persistAssistant assistantContent]⟩

/-- §1–§2 of `SendMessageUseCase.execute`: resolve + activate the
conversation (pure in the embedding: the broad `except` that yields
"Error interno al iniciar la conversación..." cannot fire), then record the
user message unconditionally. -/
def sendContext (st0 : AppState) (userId : String) (conversationId : Option String)
    (text : String) : Conversation × AppState :=
  let (conv, st1) := resolveConversation st0 userId conversationId
  let st2 := setActiveConversation st1 userId conv.id
  let userMsg : Message :=
    ⟨"msg_" ++ toString (st2.store.messages.length + 1), conv.id, "user", text⟩
  (conv, { st2 with store := addMessage st2.store userMsg })

/-- `SendMessageUseCase.execute`. -/
def executeSend (env : Env) (cfg : UseCaseConfig) (st0 : AppState) (userId : String)
    (conversationId : Option String) (text : String) : ExecResult :=
  let (conv, st3) := sendContext st0 userId conversationId text
  let endFrags := if cfg.notifyOnComplete then [finishedMarker] else []
  -- §3 explicit tool dispatch.
  match maybeCallTool env text with
  | (some toolResponse, log1) =>
    let st4 := persistAssistantMessage st3 conv.id toolResponse
    ⟨[toolResponse] ++ endFrags, st4, log1 ++ [.persistAssistant toolResponse]⟩
  | (none, log1) =>
    -- §4 calendar-intent dispatch, skipped for document-focused messages.
    if !shouldUsePdfContext st3.store conv.id text then
      let payload := buildMessagePayload st3.store conv.id cfg.maxHistoryMessages
      let (calRes, calLog) := maybeHandleCalendarLlm env text userId payload st3.store conv.id
      match calRes with
      | .error _ =>
        let resp := "No pude procesar la acción de calendario por un error interno."
        let st4 := persistAssistantMessage st3 conv.id resp
        ⟨[resp] ++ endFrags, st4,
         log1 ++ [CallEv.calendarDispatch] ++ calLog ++ [.persistAssistant resp]⟩
      | .ok (some resp) =>
        let st4 := persistAssistantMessage st3 conv.id resp
        ⟨[resp] ++ endFrags, st4,
         log1 ++ [CallEv.calendarDispatch] ++ calLog ++ [.persistAssistant resp]⟩
      | .ok none =>
        genPhase env cfg st3 conv userId text (log1 ++ [CallEv.calendarDispatch] ++ calLog)
    else genPhase env cfg st3 conv userId text log1

/-! ## `infrastructure/llm_service.AIService`

The configured provider transport (`apifreellm` / `groq` HTTP call) is an
oracle; with no provider configured the mock path runs, including its own
tool dispatch (whose `tool.execute` exception is *not* caught here and
propagates). -/

structure AIService where
  chunkSize : Nat := 40
  provider : Option (String → List RoleMsg → Except Unit String) := none
  toolRegistry : Option (List (String × ToolEntry)) := none

/-- `AIService._get_last_user_message`. -/
def getLastUserMessage (messages : List RoleMsg) : String :=
  match messages.reverse.find? (fun m => m.role == "user") with
  | some m => m.content
  | none => ""

/-- `AIService._maybe_call_tool` (same command regex; no catch around
`tool.execute`). -/
def aiMaybeCallTool (svc : AIService) (userText : String) :
    Except Unit (Option String) :=
  match toolCmdMatch userText with
  | none => .ok none
  | some (nm, q) =>
    match svc.toolRegistry with
    | none => .ok (some "No hay registro de herramientas disponible.")
    | some reg =>
      let toolName := pyStrip nm
      let query := pyStrip q
      match (reg.find? (fun p => p.1 == toolName)).map Prod.snd with
      | none => .ok (some ("Herramienta no encontrada: " ++ toolName))
      | some tl =>
        match tl.runTool query with
        | .error e => .error e
        | .ok r => .ok (some ("Resultado de herramienta (" ++ toolName ++ "): " ++ r))

/-- `AIService.generate_messages`. -/
def generateMessages (svc : AIService) (systemPrompt : String)
    (messages : List RoleMsg) : Except Unit String :=
  let lastUser := getLastUserMessage messages
  if lastUser = "" then .ok "No hay mensaje de usuario para responder."
  else
    match svc.provider with
    | some providerCall => providerCall systemPrompt messages
    | none =>
      match aiMaybeCallTool svc lastUser with
      | .error e => .error e
      | .ok (some toolResponse) => .ok toolResponse
      | .ok none =>
        .ok ("Respuesta simulada"
          ++ (if systemPrompt ≠ "" then " Contexto aplicado." else "")
          ++ ": " ++ lastUser)

/-- The slicing loop `for idx in range(0, len(response), chunk_size):
yield response[idx : idx + chunk_size]`, as take/drop recursion (equivalent
for a positive step; fuel = length, each step consumes ≥ 1 character). -/
def chunksAux : Nat → Nat → List Char → List (List Char)
  | 0, _, _ => []
  | _ + 1, _, [] => []
  | fuel + 1, n, c :: cs => (c :: cs).take n :: chunksAux fuel n ((c :: cs).drop n)

/-- `AIService.stream_messages`: the single-shot result re-chunked. -/
def streamMessages (svc : AIService) (systemPrompt : String)
    (messages : List RoleMsg) : Except Unit (List String) :=
  (generateMessages svc systemPrompt messages).map
    (fun response =>
      (chunksAux response.data.length svc.chunkSize response.data).map
        (fun l => (⟨l⟩ : String)))

/-! ## `application/api_use_cases.ConversationUseCase.delete` -/

/-- Raising `ResourceNotFound` is `.error`; on success only the conversation
key is popped from the store. -/
def conversationDelete (st : InMemoryStore) (conversationId userId : String) :
    Except Unit InMemoryStore :=
  match getConversation st conversationId with
  | some conv =>
    if conv.userId == userId then
      .ok { st with conversations := st.conversations.filter (fun c => c.id != conversationId) }
    else .error ()
  | none => .error ()

/-- The §3 data-model invariant: every stored message references a stored
conversation. -/
def messagesReferenceConversations (st : InMemoryStore) : Bool :=
  st.messages.all (fun m => st.conversations.any (fun c => c.id == m.conversationId))

/-! ## Spec-side predicates and concrete fixtures -/

/-- The contents of the `persistAssistant` events of a call log: the
assistant messages persisted by one orchestration run, in order. -/
def persistedOf (calls : List CallEv) : List String :=
  calls.filterMap (fun e => match e with | .persistAssistant c => some c | _ => none)

/-- The document-context predicate exactly as the spec sentence states it:
keyword in the text, OR a document filename occurs case-insensitively in the
text, OR the conversation has a document and one of the last 3 stored
messages contains a keyword. -/
def specDocContext (st : InMemoryStore) (conversationId userText : String) : Bool :=
  isPdfQuery userText
    || (listDocumentsByConversation st conversationId).any
        (fun d => containsSub (lowerList d.filename.data) (lowerList userText.data))
    || (!(listDocumentsByConversation st conversationId).isEmpty
        && (pyLastTake 3 (listMessagesByConversation st conversationId)).any
            (fun m => isPdfQuery m.content))

/-- The spec-side predicate amended to require a non-empty filename in the
substring branch (the only change the counterexample forces). -/
def specDocContextNonempty (st : InMemoryStore) (conversationId userText : String) : Bool :=
  isPdfQuery userText
    || (listDocumentsByConversation st conversationId).any
        (fun d => d.filename != ""
          && containsSub (lowerList d.filename.data) (lowerList userText.data))
    || (!(listDocumentsByConversation st conversationId).isEmpty
        && (pyLastTake 3 (listMessagesByConversation st conversationId)).any
            (fun m => isPdfQuery m.content))

/-- A store whose only document has an empty filename. -/
def emptyNameStore : InMemoryStore :=
  { conversations := [⟨"conv_1", "user-1", none, []⟩]
    documents := [⟨"doc_1", "user-1", "", "texto extraido", some "conv_1"⟩] }

/-- Store for the history witness: one conversation with two messages. -/
def histStore : InMemoryStore :=
  { conversations := [⟨"conv_1", "user-1", none, ["msg_1", "msg_2"]⟩]
    messages := [⟨"msg_1", "conv_1", "user", "hola"⟩, ⟨"msg_2", "conv_1", "assistant", "buenas"⟩] }

/-- Store for the invariant failing input: one conversation, one message. -/
def c8Store : InMemoryStore :=
  { conversations := [⟨"conv_1", "user-1", none, ["msg_1"]⟩]
    messages := [⟨"msg_1", "conv_1", "user", "hola"⟩] }

/-- The intent of the year-token counterexample: the user wrote the 4-digit
year 2150, which `\b(19|20)\d{2}\b` does not match. -/
def c4Intent : CalendarIntent := { action := some "delete", date := some "2150-01-02" }

/-- Two events on different days, for the ambiguous-delete counterexample. -/
def cx5Ev1 : Event := ⟨"ev1", "user-1", "Cena", 29640000, 29640060⟩

def cx5Ev2 : Event := ⟨"ev2", "user-1", "Cita", 29641440, 29641500⟩

/-- Calendar behaviour whose deletion of `ev2` raises. -/
def cx5Cal : CalendarBehavior :=
  { listEvents := .ok [cx5Ev1, cx5Ev2]
    createEvent := fun u t s e => .ok ⟨"evx", u, t, s, e⟩
    deleteEvent := fun eid => if eid = "ev2" then .error () else .ok true
    updateEvent := fun _ _ _ _ => .ok none }

def cx5Intent : CalendarIntent := { action := some "delete" }

def cx5Tool : ToolEntry := { runTool := fun _ => .ok "", calendar := some cx5Cal }

def cx5Env : Env :=
  { registry := [("calendar", cx5Tool)]
    calendarIntentOf := fun _ _ => .ok (some cx5Intent)
    todayMadrid := ⟨2026, 1, 1⟩ }

/-- Calendar behaviour for the create witness: creation succeeds. -/
def w6Cal : CalendarBehavior :=
  { listEvents := .ok []
    createEvent := fun u t s e => .ok ⟨"ev1", u, t, s, e⟩
    deleteEvent := fun _ => .ok true
    updateEvent := fun _ _ _ _ => .ok none }

def w6Tool : ToolEntry := { runTool := fun _ => .ok "", calendar := some w6Cal }

def w6IntentMissing : CalendarIntent := { action := some "create", title := some "Cena" }

def w6IntentFull : CalendarIntent :=
  { action := some "create", title := some "Cena"
    date := some "2026-05-05", startTime := some "19:00" }

def w6EnvMissing : Env :=
  { registry := [("calendar", w6Tool)]
    calendarIntentOf := fun _ _ => .ok (some w6IntentMissing)
    todayMadrid := ⟨2026, 1, 1⟩ }

def w6EnvFull : Env :=
  { registry := [("calendar", w6Tool)]
    calendarIntentOf := fun _ _ => .ok (some w6IntentFull)
    todayMadrid := ⟨2026, 1, 1⟩ }

/-- Intent for the C4 witness: a bare date in a text without a year. -/
def w4Intent : CalendarIntent := { action := some "create", date := some "2025-03-05" }

/-- App state for the resolution witness. -/
def w7St : AppState := { store := histStore, activeByUser := [("user-1", "conv_1")] }

/-- Environment with an empty tool registry (any tool name is unknown). -/
def w2Env : Env := {}

/-- A registered tool whose execution raises. -/
def w1EchoTool : ToolEntry := { runTool := fun _ => .error () }

/-- Environment whose oracles all fail, for the error-containment witness:
the tool raises, the calendar LLM raises, the stream raises immediately. -/
def w1Env : Env :=
  { registry := [("echo", w1EchoTool), ("calendar", w1EchoTool)]
    calendarIntentOf := fun _ _ => .error ()
    streamOf := fun _ _ => ([], true) }

/-- Environment with no calendar tool and a failing stream (generation-path
failure). -/
def w1bEnv : Env := { streamOf := fun _ _ => ([], true) }

/-! # Theorems -/

/-! ## Helper lemmas -/

theorem chunksAux_flatten (n : Nat) (hn : 0 < n) :
    ∀ fuel l, l.length ≤ fuel → (chunksAux fuel n l).flatten = l := by
  intro fuel
  induction fuel with
  | zero =>
    intro l hl
    cases l with
    | nil => rfl
    | cons c cs => simp at hl
  | succ f ih =>
    intro l hl
    cases l with
    | nil => rfl
    | cons c cs =>
      have hstep : (chunksAux (f + 1) n (c :: cs)).flatten
          = (c :: cs).take n ++ (chunksAux f n ((c :: cs).drop n)).flatten := by
        simp [chunksAux]
      have hlen : ((c :: cs).drop n).length = cs.length + 1 - n := by simp
      have hl2 : cs.length + 1 ≤ f + 1 := by simpa using hl
      rw [hstep, ih ((c :: cs).drop n) (by omega)]
      exact List.take_append_drop n (c :: cs)

theorem foldl_append_mk :
    ∀ (ls : List (List Char)) (acc : List Char),
      (ls.map (fun l => (⟨l⟩ : String))).foldl (· ++ ·) ⟨acc⟩ = ⟨acc ++ ls.flatten⟩ := by
  intro ls
  induction ls with
  | nil => intro acc; simp
  | cons l ls ih =>
    intro acc
    have h1 : ((⟨acc⟩ : String) ++ ⟨l⟩) = (⟨acc ++ l⟩ : String) := rfl
    simp only [List.map_cons, List.foldl_cons, h1, ih (acc ++ l), List.flatten_cons]
    rw [List.append_assoc]

theorem stringJoin_mk (ls : List (List Char)) :
    String.join (ls.map (fun l => (⟨l⟩ : String))) = ⟨ls.flatten⟩ :=
  foldl_append_mk ls []

/-! ## C9: streaming is a lossless re-chunking -/

/-- C9: for every system prompt and message list (and any service whose
configured chunk size is positive — the constructor default is 40), if the
single-shot generation returns a response, the streamed generation yields
exactly its re-chunking, and concatenating the yielded fragments in order
gives back the single-shot result. -/
theorem streamMessages_rechunks_generate (svc : AIService) (systemPrompt : String)
    (messages : List RoleMsg) (response : String)
    (hchunk : 0 < svc.chunkSize)
    (hgen : generateMessages svc systemPrompt messages = .ok response) :
    streamMessages svc systemPrompt messages
        = .ok ((chunksAux response.data.length svc.chunkSize response.data).map
            (fun l => (⟨l⟩ : String)))
      ∧ String.join ((chunksAux response.data.length svc.chunkSize response.data).map
            (fun l => (⟨l⟩ : String))) = response := by
  constructor
  · simp [streamMessages, hgen, Except.map]
  · rw [stringJoin_mk,
      chunksAux_flatten svc.chunkSize hchunk response.data.length response.data le_rfl]

/-- Witness for C9 at a concrete service (mock path, chunk size 3). -/
theorem streamMessages_rechunks_generate_witness :
    0 < ({ chunkSize := 3 } : AIService).chunkSize
      ∧ generateMessages { chunkSize := 3 } "" [⟨"user", "hola"⟩]
          = .ok "Respuesta simulada: hola"
      ∧ (streamMessages { chunkSize := 3 } "" [⟨"user", "hola"⟩]
            = .ok ((chunksAux ("Respuesta simulada: hola").data.length 3
                ("Respuesta simulada: hola").data).map (fun l => (⟨l⟩ : String)))
          ∧ String.join ((chunksAux ("Respuesta simulada: hola").data.length 3
                ("Respuesta simulada: hola").data).map (fun l => (⟨l⟩ : String)))
              = "Respuesta simulada: hola") :=
  ⟨by decide, by rfl,
   streamMessages_rechunks_generate { chunkSize := 3 } "" [⟨"user", "hola"⟩]
     "Respuesta simulada: hola" (by decide) (by rfl)⟩

/-! ## C10: history limit semantics -/

/-- C10: `get-conversation-history` with `limit = 0` returns the whole
message list (zero is treated as "no limit"), and with a positive limit `n`
returns exactly the last `min n length` messages. -/
theorem getConversationHistory_limit_semantics (st : InMemoryStore) (cid : String)
    (n : Int) (hn : 0 < n) :
    getConversationHistory st cid (some 0) = listMessagesByConversation st cid
      ∧ getConversationHistory st cid (some n)
          = (listMessagesByConversation st cid).drop
              ((listMessagesByConversation st cid).length
                - min n.toNat (listMessagesByConversation st cid).length) := by
  constructor
  · simp [getConversationHistory]
  · have hne : n ≠ 0 := by omega
    have hneg : ¬ (0 ≤ -n) := by omega
    simp [getConversationHistory, hne, pySliceFrom, hneg]

/-- Witness for C10 on a concrete two-message conversation with `n = 1`. -/
theorem getConversationHistory_limit_semantics_witness :
    (0 : Int) < 1
      ∧ (getConversationHistory histStore "conv_1" (some 0)
            = listMessagesByConversation histStore "conv_1"
          ∧ getConversationHistory histStore "conv_1" (some 1)
              = (listMessagesByConversation histStore "conv_1").drop
                  ((listMessagesByConversation histStore "conv_1").length
                    - min (1 : Int).toNat (listMessagesByConversation histStore "conv_1").length)) :=
  ⟨by decide, getConversationHistory_limit_semantics histStore "conv_1" 1 (by decide)⟩

/-! ## C3: document-context predicate -/

theorem pdf_guard_any (ms : List Message) :
    (ms.any fun m => m.content != "" && isPdfQuery m.content)
      = (ms.any fun m => isPdfQuery m.content) := by
  induction ms with
  | nil => rfl
  | cons m ms ih =>
    simp only [List.any_cons, ih]
    congr 1
    by_cases h : m.content = ""
    · rw [h]; decide
    · simp [h]

/-- C3 counterexample: a document whose filename is the empty string.  The
empty string is a (case-insensitive) substring of any text, so the claim's
filename branch fires, but the code guards on `doc.filename` truthiness and
returns false. -/
theorem shouldUsePdfContext_empty_filename_counterexample :
    shouldUsePdfContext emptyNameStore "conv_1" "hola" = false
      ∧ specDocContext emptyNameStore "conv_1" "hola" = true := by
  refine ⟨by decide, by decide⟩

/-- C3 amended: the predicate is true iff the text contains a document
keyword, OR a document of the conversation has a **non-empty** filename
occurring case-insensitively in the text, OR the conversation has at least
one document and one of its last 3 stored messages contains a keyword. -/
theorem shouldUsePdfContext_spec (st : InMemoryStore) (cid userText : String) :
    shouldUsePdfContext st cid userText = specDocContextNonempty st cid userText := by
  unfold shouldUsePdfContext specDocContextNonempty
  cases hkw : isPdfQuery userText
  · simp only [hkw, Bool.false_or, if_false]
    by_cases hdocs : listDocumentsByConversation st cid = []
    · simp [hdocs]
    · rw [if_neg hdocs, pdf_guard_any]
      have hne : (listDocumentsByConversation st cid).isEmpty = false := by
        simpa [List.isEmpty_iff] using hdocs
      simp only [hne, Bool.not_false, Bool.true_and]
      cases hr : (pyLastTake 3 (listMessagesByConversation st cid)).any
          (fun m => isPdfQuery m.content)
      · simp [hr]
      · simp [hr]
  · simp [hkw]

/-! ## C4: date re-anchoring -/

/-- C4 counterexample: the user text contains the 4-digit year token `2150`,
which `\b(19|20)\d{2}\b` does not match, so the bare date is re-anchored
anyway (here from 2150-01-02 to 2027-01-02, today being 2026-03-01 in
Madrid). -/
theorem normalizeIntentDates_year_token_counterexample :
    containsSub "2150".data "cena el 2 de enero de 2150".data = true
      ∧ userMentionsYear "cena el 2 de enero de 2150" = false
      ∧ normalizeIntentDates ⟨2026, 3, 1⟩ "cena el 2 de enero de 2150" c4Intent
          = .ok { c4Intent with date := some "2027-01-02" }
      ∧ c4Intent.date = some "2150-01-02" :=
  ⟨by decide, by decide, by rfl, by rfl⟩

/-- C4 amended: (1) when the text contains a token of the *regex*
`\b(19|20)\d{2}\b` (a whole-word 4-digit year 1900–2099 — not an arbitrary
4-digit year), every field is left unchanged; (2) a `YYYY-MM-DD` date is
re-anchored to the current Madrid year, rolled one year forward exactly when
the anchored date is strictly before today, *provided* the anchored
month/day exists in the target year (otherwise `date.replace` raises);
(3) without a year token the four fields `date`, `range_start`, `range_end`
and `update.date` are each mapped through that adjustment. -/
theorem normalizeIntentDates_amended (today : Date) (text : String)
    (intent : CalendarIntent) (s : String) (d : Date) :
    (userMentionsYear text = true → normalizeIntentDates today text intent = .ok intent)
    ∧ (parseIsoDate s = some d →
        isValidDate ⟨today.year, d.month, d.day⟩ = true →
        (dateLt ⟨today.year, d.month, d.day⟩ today = true →
          isValidDate ⟨today.year + 1, d.month, d.day⟩ = true) →
        adjustDateIfYearMissing today s
          = .ok (some (if dateLt ⟨today.year, d.month, d.day⟩ today
              then dateToIso ⟨today.year + 1, d.month, d.day⟩
              else dateToIso ⟨today.year, d.month, d.day⟩)))
    ∧ (userMentionsYear text = false →
        ∀ d1 rs re2 u,
          adjField today intent.date = .ok d1 →
          adjField today intent.rangeStart = .ok rs →
          adjField today intent.rangeEnd = .ok re2 →
          adjUpdate today intent.update = .ok u →
          normalizeIntentDates today text intent
            = .ok { intent with date := d1, rangeStart := rs, rangeEnd := re2, update := u }) := by
  refine ⟨fun h => by simp [normalizeIntentDates, h], fun hp hv hroll => ?_, ?_⟩
  · unfold adjustDateIfYearMissing
    rw [hp]
    simp only [hv, Bool.not_true, if_false]
    cases hlt : dateLt ⟨today.year, d.month, d.day⟩ today
    · simp [hlt]
    · simp [hlt, hroll hlt]
  · intro h d1 rs re2 u h1 h2 h3 h4
    simp [normalizeIntentDates, h, h1, h2, h3, h4, bind, Except.bind, pure, Except.pure,
      Except.instMonad]

/-- Witness for C4 amended, applying each conjunct at concrete inputs
(today = 2026-03-01 Madrid). -/
theorem normalizeIntentDates_amended_witness :
    (normalizeIntentDates ⟨2026, 3, 1⟩ "cena el 5 de marzo de 2026" w4Intent = .ok w4Intent)
    ∧ (adjustDateIfYearMissing ⟨2026, 3, 1⟩ "2025-03-05"
        = .ok (some (if dateLt ⟨2026, 3, 5⟩ ⟨2026, 3, 1⟩
            then dateToIso ⟨2027, 3, 5⟩ else dateToIso ⟨2026, 3, 5⟩)))
    ∧ normalizeIntentDates ⟨2026, 3, 1⟩ "reunion el 5 de marzo" w4Intent
        = .ok { w4Intent with date := some "2026-03-05", rangeStart := none,
                              rangeEnd := none, update := none } :=
  ⟨(normalizeIntentDates_amended ⟨2026, 3, 1⟩ "cena el 5 de marzo de 2026" w4Intent
      "2025-03-05" ⟨2025, 3, 5⟩).1 (by decide),
   (normalizeIntentDates_amended ⟨2026, 3, 1⟩ "cena el 5 de marzo de 2026" w4Intent
      "2025-03-05" ⟨2025, 3, 5⟩).2.1 (by rfl) (by decide) (by decide),
   (normalizeIntentDates_amended ⟨2026, 3, 1⟩ "reunion el 5 de marzo" w4Intent
      "2025-03-05" ⟨2025, 3, 5⟩).2.2 (by decide)
     (some "2026-03-05") none none none (by rfl) (by rfl) (by rfl) (by rfl)⟩

/-! ## C8: the message→conversation referential invariant -/

/-- C8 (failing input): a store holding one conversation and one of its
messages satisfies the invariant; `ConversationUseCase.delete` removes only
the conversation key, leaving the message orphaned, so the invariant is
broken by the very operation the spec says preserves it. -/
theorem conversationDelete_breaks_invariant :
    messagesReferenceConversations c8Store = true
      ∧ conversationDelete c8Store "conv_1" "user-1"
          = .ok { c8Store with conversations := [] }
      ∧ messagesReferenceConversations { c8Store with conversations := [] } = false :=
  ⟨by decide, by rfl, by decide⟩

/-! ## C7: conversation resolution -/

theorem find?_replace_any (p : α → Bool) (x : α) (hx : p x = true) :
    ∀ l : List α, l.any p = true →
      (l.map (fun y => if p y then x else y)).find? p = some x := by
  intro l h
  induction l with
  | nil => simp at h
  | cons a as ih =>
    cases ha : p a
    · have h' : as.any p = true := by simpa [List.any_cons, ha] using h
      simp only [List.map_cons, ha, if_false]
      rw [List.find?_cons_of_neg _ (by simp [ha]), ih h']
    · simp only [List.map_cons, ha, if_true]
      rw [List.find?_cons_of_pos _ hx]

theorem find?_append_last (p : α → Bool) (x : α) (hx : p x = true) :
    ∀ l : List α, l.any p = false → (l ++ [x]).find? p = some x := by
  intro l h
  induction l with
  | nil => simp [List.find?, hx]
  | cons a as ih =>
    have ha : p a = false := by
      cases hpa : p a
      · rfl
      · simp [List.any_cons, hpa] at h
    have h' : as.any p = false := by
      cases has : as.any p
      · rfl
      · simp [List.any_cons, has] at h
    rw [List.cons_append, List.find?_cons_of_neg _ (by simp [ha]), ih h']

theorem find?_dictInsert (key : α → String) (x : α) (l : List α) :
    (dictInsert key x l).find? (fun y => key y == key x) = some x := by
  unfold dictInsert
  cases h : l.any (fun y => key y == key x)
  · simp only [h, Bool.false_eq_true, if_false]
    exact find?_append_last _ x (by simp) l h
  · simp only [h, if_true]
    exact find?_replace_any _ x (by simp) l h

theorem activeIdOf_setActive (st : AppState) (u cid : String) :
    activeIdOf (setActiveConversation st u cid) u = some cid := by
  unfold setActiveConversation activeIdOf
  cases h : st.activeByUser.any (fun p => p.1 == u)
  · simp only [h, Bool.false_eq_true, if_false]
    rw [find?_append_last (fun p => p.1 == u) (u, cid) (by simp) _ h]
    rfl
  · simp only [h, if_true]
    rw [find?_replace_any (fun p => p.1 == u) (u, cid) (by simp) _ h]
    rfl

/-- C7: conversation resolution policy.  A supplied id that exists is used
as-is; a supplied id absent from the store leads to a fresh conversation; no
id (or the falsy empty-string id) uses the tracked active conversation when
its conversation is still present, creating one otherwise; a created
conversation has the synthetic id `conv_{len+1}`, belongs to the caller and
is stored; and in every case the resolved conversation is marked active for
the user, overwriting any prior pointer. -/
theorem resolveConversation_policy (st : AppState) (userId : String)
    (conversationId : Option String) :
    (∀ c conv, conversationId = some c → c ≠ "" →
        getConversation st.store c = some conv →
        resolveConversation st userId conversationId = (conv, st))
    ∧ (∀ c, conversationId = some c → c ≠ "" →
        getConversation st.store c = none →
        resolveConversation st userId conversationId = createConversation st userId none)
    ∧ ((conversationId = none ∨ conversationId = some "") →
        (∀ a, getActiveConversation st userId = some a →
          resolveConversation st userId conversationId = (a, st))
        ∧ (getActiveConversation st userId = none →
          resolveConversation st userId conversationId = createConversation st userId none))
    ∧ (∀ conv st1, createConversation st userId none = (conv, st1) →
        conv.id = "conv_" ++ toString (st.store.conversations.length + 1)
          ∧ conv.userId = userId
          ∧ getConversation st1.store conv.id = some conv)
    ∧ activeIdOf
        (setActiveConversation (resolveConversation st userId conversationId).2 userId
          (resolveConversation st userId conversationId).1.id) userId
        = some (resolveConversation st userId conversationId).1.id := by
  refine ⟨?_, ?_, ?_, ?_, ?_⟩
  · intro c conv hc hne hget
    subst hc
    simp [resolveConversation, hne, hget]
  · intro c hc hne hget
    subst hc
    simp [resolveConversation, hne, hget]
  · intro hcase
    constructor
    · intro a ha
      rcases hcase with h | h <;> subst h <;>
        simp [resolveConversation, resolveFromActive, ha]
    · intro ha
      rcases hcase with h | h <;> subst h <;>
        simp [resolveConversation, resolveFromActive, ha]
  · intro conv st1 h
    unfold createConversation at h
    injection h with h1 h2
    subst h1
    refine ⟨rfl, rfl, ?_⟩
    subst h2
    exact find?_dictInsert Conversation.id _ st.store.conversations
  · exact activeIdOf_setActive _ userId _

/-- Witness for C7: an existing supplied id resolves to the stored
conversation and becomes the active one. -/
theorem resolveConversation_policy_witness :
    resolveConversation w7St "user-1" (some "conv_1")
        = (⟨"conv_1", "user-1", none, ["msg_1", "msg_2"]⟩, w7St)
      ∧ activeIdOf
          (setActiveConversation (resolveConversation w7St "user-1" (some "conv_1")).2 "user-1"
            (resolveConversation w7St "user-1" (some "conv_1")).1.id) "user-1"
          = some (resolveConversation w7St "user-1" (some "conv_1")).1.id :=
  ⟨(resolveConversation_policy w7St "user-1" (some "conv_1")).1 "conv_1"
      ⟨"conv_1", "user-1", none, ["msg_1", "msg_2"]⟩ rfl (by decide) (by rfl),
   (resolveConversation_policy w7St "user-1" (some "conv_1")).2.2.2.2⟩

/-! ## C6: create-intent requirements -/

/-- C6: for a create intent (calendar tool registered, intent produced and
date-normalized, action `create`): (1) a missing (falsy) date or start time
yields the fixed clarification request with an empty external-call log — in
particular no event creation is attempted; (2) with date and start present,
a parseable start instant and a falsy end time, the calendar collaborator is
invoked exactly once, with the end instant equal to the start instant plus
60 minutes. -/
theorem calendarCreate_requirements (env : Env) (text userId : String)
    (messages : List RoleMsg) (st : InMemoryStore) (cid : String)
    (ctool : ToolEntry) (cb : CalendarBehavior) (intent0 intent : CalendarIntent)
    (hpdf : shouldUsePdfContext st cid text = false)
    (hreg : getTool env "calendar" = some ctool)
    (hcb : ctool.calendar = some cb)
    (horacle : env.calendarIntentOf (buildCalendarIntentPrompt env.todayUtcIso) messages
        = .ok (some intent0))
    (hnorm : normalizeIntentDates env.todayMadrid text intent0 = .ok intent)
    (haction : lowerStr (pyOrStr intent.action "none") = "create") :
    ((isTruthyS intent.date = false ∨ isTruthyS intent.startTime = false) →
      maybeHandleCalendarLlm env text userId messages st cid
        = (.ok (some "Para agendar necesito fecha y hora."), []))
    ∧ (∀ startsAt : Int,
        isTruthyS intent.date = true → isTruthyS intent.startTime = true →
        isTruthyS intent.endTime = false →
        combineDateTimeMadrid env.tz (intent.date.getD "") (intent.startTime.getD "")
          = some startsAt →
        (maybeHandleCalendarLlm env text userId messages st cid).2
          = [CallEv.createEvent userId (pyStrip (pyOrStr intent.title "Evento"))
              startsAt (startsAt + 60)]) := by
  have hmain : maybeHandleCalendarLlm env text userId messages st cid
      = calCreate env ctool.calendar userId intent := by
    unfold maybeHandleCalendarLlm
    simp [hpdf, hreg, horacle, hnorm, haction]
  constructor
  · intro hmiss
    rw [hmain]
    unfold calCreate
    rcases hmiss with h | h <;> simp [h]
  · intro startsAt hd hs he hcomb
    rw [hmain]
    unfold calCreate
    simp only [hd, hs, he, hcomb, Bool.not_true, Bool.false_or, Bool.or_false,
      Bool.or_self, if_false, Bool.false_eq_true, hcb]
    cases hres : cb.createEvent userId (pyStrip (pyOrStr intent.title "Evento"))
        startsAt (startsAt + 60) <;> simp [hres]

/-- Witness for C6 at concrete environments: a create intent missing the
date yields the clarification (no calls); a full intent with no end time
creates with end = start + 1h (2026-05-05 19:00 Madrid = instant 29633400). -/
theorem calendarCreate_requirements_witness :
    maybeHandleCalendarLlm w6EnvMissing "agenda una cena" "user-1" [] {} "c"
        = (.ok (some "Para agendar necesito fecha y hora."), [])
      ∧ (maybeHandleCalendarLlm w6EnvFull "agenda una cena" "user-1" [] {} "c").2
          = [CallEv.createEvent "user-1" "Cena" 29633400 (29633400 + 60)] :=
  ⟨(calendarCreate_requirements w6EnvMissing "agenda una cena" "user-1" [] {} "c"
      w6Tool w6Cal w6IntentMissing w6IntentMissing (by rfl) (by rfl) (by rfl) (by rfl)
      (by rfl) (by rfl)).1 (Or.inl (by rfl)),
   (calendarCreate_requirements w6EnvFull "agenda una cena" "user-1" [] {} "c"
      w6Tool w6Cal w6IntentFull w6IntentFull (by rfl) (by rfl) (by rfl) (by rfl)
      (by rfl) (by rfl)).2 29633400 (by rfl) (by rfl) (by rfl) (by rfl)⟩

/-! ## C5: ambiguous bulk deletion -/

/-- C5 counterexample: two candidate events, deletion of `ev2` raises.  The
reply counts only the successful deletion ("Se eliminaron 1 eventos") but
its listing contains *both* events — including the one whose deletion
failed — contradicting "lists only the successfully deleted events". -/
theorem calendarDelete_lists_failed_counterexample :
    cx5Cal.deleteEvent "ev2" = .error ()
      ∧ maybeHandleCalendarLlm cx5Env "elimina los eventos" "user-1" [] {} "c"
          = (.ok (some ("Se eliminaron 1 eventos:\n"
                ++ formatEvent cx5Ev1 ++ "\n" ++ formatEvent cx5Ev2)),
             [CallEv.listEvents, CallEv.deleteEvent "ev1", CallEv.deleteEvent "ev2"]) :=
  ⟨by rfl, by rfl⟩

/-- C5 amended: for a delete intent with no range, no event id and no title
whose fuzzy resolution is ambiguous (a candidate list), every candidate's
deletion is attempted, per-event failures are caught (the overall result is
`.ok`), the reply reports the number of *successful* deletions, and the
listing shows **all** matched candidates (not only the successfully deleted
ones). -/
theorem calendarDelete_ambiguous_bulk (env : Env) (text userId : String)
    (messages : List RoleMsg) (st : InMemoryStore) (cid : String)
    (ctool : ToolEntry) (cb : CalendarBehavior) (intent0 intent : CalendarIntent)
    (events ms : List Event)
    (hpdf : shouldUsePdfContext st cid text = false)
    (hreg : getTool env "calendar" = some ctool)
    (hcb : ctool.calendar = some cb)
    (horacle : env.calendarIntentOf (buildCalendarIntentPrompt env.todayUtcIso) messages
        = .ok (some intent0))
    (hnorm : normalizeIntentDates env.todayMadrid text intent0 = .ok intent)
    (haction : lowerStr (pyOrStr intent.action "none") = "delete")
    (hrs : isTruthyS intent.rangeStart = false)
    (hre : isTruthyS intent.rangeEnd = false)
    (hid : isTruthyS intent.eventId = false)
    (htitle : isTruthyS intent.title = false)
    (hlist : cb.listEvents = .ok events)
    (hfind : findEventByTitleDate events intent.title intent.date = some (.inr ms)) :
    maybeHandleCalendarLlm env text userId messages st cid
      = (.ok (some ("Se eliminaron "
            ++ toString (ms.filter (fun e => (cb.deleteEvent e.id).toBool)).length
            ++ " eventos:\n" ++ joinWithNl (ms.map formatEvent))),
         [CallEv.listEvents] ++ ms.map (fun e => CallEv.deleteEvent e.id)) := by
  have hmain : maybeHandleCalendarLlm env text userId messages st cid
      = calDelete ctool.calendar userId intent := by
    unfold maybeHandleCalendarLlm
    simp [hpdf, hreg, horacle, hnorm, haction]
  rw [hmain]
  unfold calDelete
  simp [hcb, hlist, hrs, hre, hid, hfind, bulkDelete]

/-- Witness for C5 at the concrete two-event environment. -/
theorem calendarDelete_ambiguous_bulk_witness :
    maybeHandleCalendarLlm cx5Env "elimina mis eventos" "user-1" [] {} "c"
      = (.ok (some ("Se eliminaron "
            ++ toString (([cx5Ev1, cx5Ev2].filter
                (fun e => (cx5Cal.deleteEvent e.id).toBool)).length)
            ++ " eventos:\n" ++ joinWithNl ([cx5Ev1, cx5Ev2].map formatEvent))),
         [CallEv.listEvents] ++ [cx5Ev1, cx5Ev2].map (fun e => CallEv.deleteEvent e.id)) :=
  calendarDelete_ambiguous_bulk cx5Env "elimina mis eventos" "user-1" [] {} "c"
    cx5Tool cx5Cal cx5Intent cx5Intent [cx5Ev1, cx5Ev2] [cx5Ev1, cx5Ev2]
    (by rfl) (by rfl) (by rfl) (by rfl) (by rfl) (by rfl) (by rfl) (by rfl) (by rfl)
    (by rfl) (by rfl) (by rfl)

/-! ## C2: unknown explicit tool name -/

/-- C2: a message matching the `tool:` syntax with an unregistered name gets
the fixed "Herramienta no encontrada" sentinel as its only reply fragment
(plus the completion marker when enabled), exactly one assistant message is
persisted (the sentinel), and neither calendar dispatch nor generic
generation runs. -/
theorem toolNotFound_shortCircuits (env : Env) (cfg : UseCaseConfig) (st0 : AppState)
    (userId : String) (conversationId : Option String) (text nm q : String)
    (hmatch : toolCmdMatch text = some (nm, q))
    (hmiss : getTool env (pyStrip nm) = none) :
    (executeSend env cfg st0 userId conversationId text).fragments
        = ["Herramienta no encontrada: " ++ pyStrip nm]
          ++ (if cfg.notifyOnComplete then [finishedMarker] else [])
      ∧ (executeSend env cfg st0 userId conversationId text).calls
          = [CallEv.persistAssistant ("Herramienta no encontrada: " ++ pyStrip nm)]
      ∧ persistedOf (executeSend env cfg st0 userId conversationId text).calls
          = ["Herramienta no encontrada: " ++ pyStrip nm]
      ∧ CallEv.calendarDispatch ∉ (executeSend env cfg st0 userId conversationId text).calls
      ∧ CallEv.streamGeneration ∉ (executeSend env cfg st0 userId conversationId text).calls := by
  have hcall : maybeCallTool env text
      = (some ("Herramienta no encontrada: " ++ pyStrip nm), []) := by
    unfold maybeCallTool
    rw [hmatch]
    simp [hmiss]
  simp [executeSend, hcall, persistedOf]

/-- Witness for C2: `tool:nope:hola` against an empty registry. -/
theorem toolNotFound_shortCircuits_witness :
    (executeSend w2Env {} w7St "user-1" none "tool:nope:hola").fragments
        = ["Herramienta no encontrada: " ++ pyStrip "nope"]
          ++ (if ({} : UseCaseConfig).notifyOnComplete then [finishedMarker] else [])
      ∧ (executeSend w2Env {} w7St "user-1" none "tool:nope:hola").calls
          = [CallEv.persistAssistant ("Herramienta no encontrada: " ++ pyStrip "nope")]
      ∧ persistedOf (executeSend w2Env {} w7St "user-1" none "tool:nope:hola").calls
          = ["Herramienta no encontrada: " ++ pyStrip "nope"]
      ∧ CallEv.calendarDispatch ∉ (executeSend w2Env {} w7St "user-1" none "tool:nope:hola").calls
      ∧ CallEv.streamGeneration ∉ (executeSend w2Env {} w7St "user-1" none "tool:nope:hola").calls :=
  toolNotFound_shortCircuits w2Env {} w7St "user-1" none "tool:nope:hola" "nope" "hola"
    (by rfl) (by rfl)

/-! ## C1: error containment of the orchestrator -/

theorem persistedOf_append (l1 l2 : List CallEv) :
    persistedOf (l1 ++ l2) = persistedOf l1 ++ persistedOf l2 := by
  simp [persistedOf, List.filterMap_append]

theorem persistedOf_deleteLog (l : List Event) :
    persistedOf (l.map fun e => CallEv.deleteEvent e.id) = [] := by
  simp [persistedOf, List.filterMap_map]

theorem persistedOf_listEvents : persistedOf [CallEv.listEvents] = [] := rfl

theorem persistedOf_nil : persistedOf [] = [] := rfl

theorem persistedOf_cons_tool (n q : String) (l : List CallEv) :
    persistedOf (CallEv.toolExecute n q :: l) = persistedOf l := rfl

theorem persistedOf_cons_dispatch (l : List CallEv) :
    persistedOf (CallEv.calendarDispatch :: l) = persistedOf l := rfl

theorem persistedOf_cons_stream (l : List CallEv) :
    persistedOf (CallEv.streamGeneration :: l) = persistedOf l := rfl

theorem persistedOf_cons_persist (c : String) (l : List CallEv) :
    persistedOf (CallEv.persistAssistant c :: l) = c :: persistedOf l := rfl

theorem persistedOf_calCreate (env : Env) (cal : Option CalendarBehavior)
    (userId : String) (intent : CalendarIntent) :
    persistedOf (calCreate env cal userId intent).2 = [] := by
  unfold calCreate
  dsimp only
  repeat' split
  all_goals rfl

theorem persistedOf_calList (cal : Option CalendarBehavior) (userId : String)
    (intent : CalendarIntent) :
    persistedOf (calList cal userId intent).2 = [] := by
  unfold calList
  dsimp only
  repeat' split
  all_goals rfl

theorem persistedOf_calDeleteSingle (cb : CalendarBehavior) (eid : String)
    (log0 : List CallEv) :
    persistedOf (calDeleteSingle cb eid log0).2 = persistedOf log0 := by
  unfold calDeleteSingle
  repeat' split
  all_goals rw [persistedOf_append]
  all_goals simp [persistedOf]

theorem persistedOf_calDelete (cal : Option CalendarBehavior) (userId : String)
    (intent : CalendarIntent) :
    persistedOf (calDelete cal userId intent).2 = [] := by
  unfold calDelete
  dsimp only
  repeat' split
  all_goals
    first
      | rfl
      | (rw [persistedOf_calDeleteSingle]; rfl)
      | (simp only [bulkDelete, persistedOf_append, persistedOf_deleteLog,
          persistedOf_listEvents]
         rfl)

theorem persistedOf_calEdit (env : Env) (cal : Option CalendarBehavior) (userId : String)
    (intent : CalendarIntent) :
    persistedOf (calEdit env cal userId intent).2 = [] := by
  unfold calEdit
  dsimp only
  repeat' split
  all_goals rfl

theorem persistedOf_maybeHandleCalendarLlm (env : Env) (text userId : String)
    (messages : List RoleMsg) (st : InMemoryStore) (cid : String) :
    persistedOf (maybeHandleCalendarLlm env text userId messages st cid).2 = [] := by
  unfold maybeHandleCalendarLlm
  dsimp only
  repeat' split
  all_goals
    first
      | rfl
      | apply persistedOf_calCreate
      | apply persistedOf_calList
      | apply persistedOf_calDelete
      | apply persistedOf_calEdit

/-- C1: the orchestrator is total over every oracle outcome (it never
raises past its boundary — `executeSend` is a function into plain results):
with notification enabled the fragment sequence always ends with the
completion marker, exactly one assistant message is persisted on every path,
and each failing collaborator (tool execution, calendar dispatch, stream
generation) is degraded to its user-facing apology persisted as the
assistant turn. -/
theorem sendMessage_error_containment (env : Env) (cfg : UseCaseConfig) (st0 : AppState)
    (userId : String) (conversationId : Option String) (text : String)
    (hnotify : cfg.notifyOnComplete = true) :
    (∃ xs, (executeSend env cfg st0 userId conversationId text).fragments
        = xs ++ [finishedMarker])
    ∧ (∃ c, persistedOf (executeSend env cfg st0 userId conversationId text).calls = [c])
    ∧ (∀ nm q tl, toolCmdMatch text = some (nm, q) →
        getTool env (pyStrip nm) = some tl →
        tl.runTool (pyStrip q) = .error () →
        persistedOf (executeSend env cfg st0 userId conversationId text).calls
          = ["Error al ejecutar la herramienta " ++ pyStrip nm ++ "."])
    ∧ (toolCmdMatch text = none →
        shouldUsePdfContext (sendContext st0 userId conversationId text).2.store
            (sendContext st0 userId conversationId text).1.id text = false →
        (maybeHandleCalendarLlm env text userId
            (buildMessagePayload (sendContext st0 userId conversationId text).2.store
              (sendContext st0 userId conversationId text).1.id cfg.maxHistoryMessages)
            (sendContext st0 userId conversationId text).2.store
            (sendContext st0 userId conversationId text).1.id).1 = .error () →
        persistedOf (executeSend env cfg st0 userId conversationId text).calls
          = ["No pude procesar la acción de calendario por un error interno."])
    ∧ (toolCmdMatch text = none →
        (shouldUsePdfContext (sendContext st0 userId conversationId text).2.store
            (sendContext st0 userId conversationId text).1.id text = true
          ∨ (maybeHandleCalendarLlm env text userId
              (buildMessagePayload (sendContext st0 userId conversationId text).2.store
                (sendContext st0 userId conversationId text).1.id cfg.maxHistoryMessages)
              (sendContext st0 userId conversationId text).2.store
              (sendContext st0 userId conversationId text).1.id).1 = .ok none) →
        ∀ chunks,
          env.streamOf
              (buildSystemPrompt (sendContext st0 userId conversationId text).2.store userId
                (sendContext st0 userId conversationId text).1.id
                (buildPdfFocusContext (sendContext st0 userId conversationId text).2.store
                  (sendContext st0 userId conversationId text).1.id text))
              (buildMessagePayload (sendContext st0 userId conversationId text).2.store
                (sendContext st0 userId conversationId text).1.id cfg.maxHistoryMessages)
            = (chunks, true) →
          persistedOf (executeSend env cfg st0 userId conversationId text).calls
            = ["Ocurrió un error al generar la respuesta. Intenta nuevamente."]) := by
  cases htc : toolCmdMatch text with
  | some nmq =>
    obtain ⟨nm, q⟩ := nmq
    cases hget : getTool env (pyStrip nm) with
    | none =>
      have hcall : maybeCallTool env text
          = (some ("Herramienta no encontrada: " ++ pyStrip nm), []) := by
        unfold maybeCallTool; rw [htc]; simp [hget]
      refine ⟨⟨["Herramienta no encontrada: " ++ pyStrip nm],
          by simp [executeSend, hcall, hnotify]⟩,
        ⟨"Herramienta no encontrada: " ++ pyStrip nm,
          by simp [executeSend, hcall, persistedOf]⟩, ?_, ?_, ?_⟩
      · intro nm' q' tl hm hg hr
        injection hm with hm1
        injection hm1 with hm2 hm3
        subst hm2
        rw [hget] at hg
        exact Option.noConfusion hg
      · intro h; exact Option.noConfusion h
      · intro h; exact Option.noConfusion h
    | some tl =>
      cases hrun : tl.runTool (pyStrip q) with
      | error e =>
        have hcall : maybeCallTool env text
            = (some ("Error al ejecutar la herramienta " ++ pyStrip nm ++ "."),
               [.toolExecute (pyStrip nm) (pyStrip q)]) := by
          unfold maybeCallTool; rw [htc]; simp [hget, hrun]
        refine ⟨⟨["Error al ejecutar la herramienta " ++ pyStrip nm ++ "."],
            by simp [executeSend, hcall, hnotify]⟩,
          ⟨"Error al ejecutar la herramienta " ++ pyStrip nm ++ ".",
            by simp [executeSend, hcall, persistedOf]⟩, ?_, ?_, ?_⟩
        · intro nm' q' tl' hm hg hr
          injection hm with hm1
          injection hm1 with hm2 hm3
          subst hm2
          simp [executeSend, hcall, persistedOf]
        · intro h; exact Option.noConfusion h
        · intro h; exact Option.noConfusion h
      | ok r =>
        have hcall : maybeCallTool env text
            = (some ("Resultado de herramienta (" ++ pyStrip nm ++ "): " ++ r),
               [.toolExecute (pyStrip nm) (pyStrip q)]) := by
          unfold maybeCallTool; rw [htc]; simp [hget, hrun]
        refine ⟨⟨["Resultado de herramienta (" ++ pyStrip nm ++ "): " ++ r],
            by simp [executeSend, hcall, hnotify]⟩,
          ⟨"Resultado de herramienta (" ++ pyStrip nm ++ "): " ++ r,
            by simp [executeSend, hcall, persistedOf]⟩, ?_, ?_, ?_⟩
        · intro nm' q' tl' hm hg hr
          injection hm with hm1
          injection hm1 with hm2 hm3
          subst hm2
          subst hm3
          rw [hget] at hg
          injection hg with hg1
          subst hg1
          rw [hrun] at hr
          exact Except.noConfusion hr
        · intro h; exact Option.noConfusion h
        · intro h; exact Option.noConfusion h
  | none =>
    have hcall : maybeCallTool env text = (none, []) := by
      unfold maybeCallTool; rw [htc]
    cases hpdf : shouldUsePdfContext (sendContext st0 userId conversationId text).2.store
        (sendContext st0 userId conversationId text).1.id text with
    | true =>
      rcases hstr : env.streamOf
          (buildSystemPrompt (sendContext st0 userId conversationId text).2.store userId
            (sendContext st0 userId conversationId text).1.id
            (buildPdfFocusContext (sendContext st0 userId conversationId text).2.store
              (sendContext st0 userId conversationId text).1.id text))
          (buildMessagePayload (sendContext st0 userId conversationId text).2.store
            (sendContext st0 userId conversationId text).1.id cfg.maxHistoryMessages)
        with ⟨chunks, raised⟩
      cases raised with
      | true =>
        refine ⟨⟨chunks ++ ["Ocurrió un error al generar la respuesta. Intenta nuevamente."],
            by simp [executeSend, hcall, hpdf, genPhase, hstr, hnotify]⟩,
          ⟨"Ocurrió un error al generar la respuesta. Intenta nuevamente.",
            by simp [executeSend, hcall, hpdf, genPhase, hstr, persistedOf]⟩, ?_, ?_, ?_⟩
        · intro nm' q' tl' hm hg hr; exact Option.noConfusion hm
        · intro h hpdf2 hcal2; exact Bool.noConfusion hpdf2
        · intro h hdisj chunks2 hstr2
          simp [executeSend, hcall, hpdf, genPhase, hstr, persistedOf]
      | false =>
        refine ⟨⟨chunks, by simp [executeSend, hcall, hpdf, genPhase, hstr, hnotify]⟩,
          ⟨String.join chunks,
            by simp [executeSend, hcall, hpdf, genPhase, hstr, persistedOf]⟩, ?_, ?_, ?_⟩
        · intro nm' q' tl' hm hg hr; exact Option.noConfusion hm
        · intro h hpdf2 hcal2; exact Bool.noConfusion hpdf2
        · intro h hdisj chunks2 hstr2
          injection hstr2 with hs1 hs2
          exact Bool.noConfusion hs2
    | false =>
      rcases hcalres : maybeHandleCalendarLlm env text userId
          (buildMessagePayload (sendContext st0 userId conversationId text).2.store
            (sendContext st0 userId conversationId text).1.id cfg.maxHistoryMessages)
          (sendContext st0 userId conversationId text).2.store
          (sendContext st0 userId conversationId text).1.id with ⟨calRes, calLog⟩
      have hpersistCal : persistedOf calLog = [] := by
        have h := persistedOf_maybeHandleCalendarLlm env text userId
          (buildMessagePayload (sendContext st0 userId conversationId text).2.store
            (sendContext st0 userId conversationId text).1.id cfg.maxHistoryMessages)
          (sendContext st0 userId conversationId text).2.store
          (sendContext st0 userId conversationId text).1.id
        rw [hcalres] at h
        exact h
      cases calRes with
      | error e =>
        refine ⟨⟨["No pude procesar la acción de calendario por un error interno."],
            by simp [executeSend, hcall, hpdf, hcalres, hnotify]⟩,
          ⟨"No pude procesar la acción de calendario por un error interno.",
            by simp [executeSend, hcall, hpdf, hcalres, persistedOf_append, hpersistCal, persistedOf_nil, persistedOf_cons_tool, persistedOf_cons_dispatch, persistedOf_cons_stream, persistedOf_cons_persist]⟩, ?_, ?_, ?_⟩
        · intro nm' q' tl' hm hg hr; exact Option.noConfusion hm
        · intro h hpdf2 hcal2
          simp [executeSend, hcall, hpdf, hcalres, persistedOf_append, hpersistCal, persistedOf_nil, persistedOf_cons_tool, persistedOf_cons_dispatch, persistedOf_cons_stream, persistedOf_cons_persist]
        · intro h hdisj chunks2 hstr2
          rcases hdisj with hd | hd
          · exact Bool.noConfusion hd
          · simp at hd
      | ok o =>
        cases o with
        | some resp =>
          refine ⟨⟨[resp], by simp [executeSend, hcall, hpdf, hcalres, hnotify]⟩,
            ⟨resp, by simp [executeSend, hcall, hpdf, hcalres, persistedOf_append, hpersistCal, persistedOf_nil, persistedOf_cons_tool, persistedOf_cons_dispatch, persistedOf_cons_stream, persistedOf_cons_persist]⟩, ?_, ?_, ?_⟩
          · intro nm' q' tl' hm hg hr; exact Option.noConfusion hm
          · intro h hpdf2 hcal2
            simp at hcal2
          · intro h hdisj chunks2 hstr2
            rcases hdisj with hd | hd
            · exact Bool.noConfusion hd
            · simp at hd
        | none =>
          rcases hstr : env.streamOf
              (buildSystemPrompt (sendContext st0 userId conversationId text).2.store userId
                (sendContext st0 userId conversationId text).1.id
                (buildPdfFocusContext (sendContext st0 userId conversationId text).2.store
                  (sendContext st0 userId conversationId text).1.id text))
              (buildMessagePayload (sendContext st0 userId conversationId text).2.store
                (sendContext st0 userId conversationId text).1.id cfg.maxHistoryMessages)
            with ⟨chunks, raised⟩
          cases raised with
          | true =>
            refine ⟨⟨chunks ++ ["Ocurrió un error al generar la respuesta. Intenta nuevamente."],
                by simp [executeSend, hcall, hpdf, hcalres, genPhase, hstr, hnotify]⟩,
              ⟨"Ocurrió un error al generar la respuesta. Intenta nuevamente.",
                by simp [executeSend, hcall, hpdf, hcalres, genPhase, hstr, persistedOf_append, hpersistCal, persistedOf_nil, persistedOf_cons_tool, persistedOf_cons_dispatch, persistedOf_cons_stream, persistedOf_cons_persist]⟩, ?_, ?_, ?_⟩
            · intro nm' q' tl' hm hg hr; exact Option.noConfusion hm
            · intro h hpdf2 hcal2
              simp at hcal2
            · intro h hdisj chunks2 hstr2
              simp [executeSend, hcall, hpdf, hcalres, genPhase, hstr, persistedOf_append, hpersistCal, persistedOf_nil, persistedOf_cons_tool, persistedOf_cons_dispatch, persistedOf_cons_stream, persistedOf_cons_persist]
          | false =>
            refine ⟨⟨chunks,
                by simp [executeSend, hcall, hpdf, hcalres, genPhase, hstr, hnotify]⟩,
              ⟨String.join chunks,
                by simp [executeSend, hcall, hpdf, hcalres, genPhase, hstr, persistedOf_append, hpersistCal, persistedOf_nil, persistedOf_cons_tool, persistedOf_cons_dispatch, persistedOf_cons_stream, persistedOf_cons_persist]⟩, ?_, ?_, ?_⟩
            · intro nm' q' tl' hm hg hr; exact Option.noConfusion hm
            · intro h hpdf2 hcal2
              simp at hcal2
            · intro h hdisj chunks2 hstr2
              injection hstr2 with hs1 hs2
              exact Bool.noConfusion hs2

/-- Witness for C1 at concrete failing environments: a raising tool, a
raising calendar LLM, and a raising stream each end as the persisted
apology. -/
theorem sendMessage_error_containment_witness :
    persistedOf (executeSend w1Env {} w7St "user-1" none "tool:echo:x").calls
        = ["Error al ejecutar la herramienta " ++ pyStrip "echo" ++ "."]
      ∧ persistedOf (executeSend w1Env {} w7St "user-1" none "hola").calls
          = ["No pude procesar la acción de calendario por un error interno."]
      ∧ persistedOf (executeSend w1bEnv {} w7St "user-1" none "hola").calls
          = ["Ocurrió un error al generar la respuesta. Intenta nuevamente."] :=
  ⟨(sendMessage_error_containment w1Env {} w7St "user-1" none "tool:echo:x"
      (by rfl)).2.2.1 "echo" "x" w1EchoTool (by rfl) (by rfl) (by rfl),
   (sendMessage_error_containment w1Env {} w7St "user-1" none "hola"
      (by rfl)).2.2.2.1 (by rfl) (by rfl) (by rfl),
   (sendMessage_error_containment w1bEnv {} w7St "user-1" none "hola"
      (by rfl)).2.2.2.2 (by rfl) (Or.inr (by rfl)) [] (by rfl)⟩

end Agente
